import Mathlib

/-!
# MOS 6522 (VIA) register model of the VIC20 emulator

Shallow embedding of `MOS6522::reset`, `MOS6522::writeReg`, `MOS6522::readReg`
and `MOS6522::tick` from `examples/VGA/VIC20/src/VIA6522.cpp`.

Conventions of the embedding:

* `uint8_t` / `uint16_t` members are natural numbers; every store into such a
  member is truncated with `u8` / `u16` (reduction modulo `2^8` / `2^16`).
* `int` members (the two timer counters) and the `cycles` argument are
  integers; every `-=` and `+=` of `tick` on a counter is reduced to the 32-bit
  two's-complement range with `wrap32`, as the compiled code does when the
  result leaves the range of `int`; `(uint16_t)x` is `x % 65536`.
* `~x` on a non-negative `int` is represented by its 32-bit pattern (`cnot`);
  it is only ever combined with `&` against a non-negative operand, so the
  result is the non-negative number the C++ expression yields.
* the array index `reg` is a `Fin 16` (the array has 16 cells), `value` is a
  non-negative `int` (the bus hands over a byte).
* the two port callbacks `m_portOut` / `m_portIn` are function pointers to code
  outside the chip; they are passed as state transformers (`Callbacks`).
-/

namespace VIA6522

/-! ## Constants of the header `VIA6522.h` -/

/-- Modelled from the spec: the header `VIA6522.h` declaring the register
indices is not among the sources; the value is the MOS 6522 register map
(output register B). -/
def VIA_REG_ORB : Fin 16 := 0x0
/-- Modelled from the spec: register index missing with `VIA6522.h`;
output register A (handshake variant). -/
def VIA_REG_ORA : Fin 16 := 0x1
/-- Modelled from the spec: register index missing with `VIA6522.h`;
direction register B. -/
def VIA_REG_DDRB : Fin 16 := 0x2
/-- Modelled from the spec: register index missing with `VIA6522.h`;
direction register A. -/
def VIA_REG_DDRA : Fin 16 := 0x3
/-- Modelled from the spec: register index missing with `VIA6522.h`;
Timer A counter low. -/
def VIA_REG_T1_C_LO : Fin 16 := 0x4
/-- Modelled from the spec: register index missing with `VIA6522.h`;
Timer A counter high. -/
def VIA_REG_T1_C_HI : Fin 16 := 0x5
/-- Modelled from the spec: register index missing with `VIA6522.h`;
Timer A latch low. -/
def VIA_REG_T1_L_LO : Fin 16 := 0x6
/-- Modelled from the spec: register index missing with `VIA6522.h`;
Timer A latch high. -/
def VIA_REG_T1_L_HI : Fin 16 := 0x7
/-- Modelled from the spec: register index missing with `VIA6522.h`;
Timer B counter low. -/
def VIA_REG_T2_C_LO : Fin 16 := 0x8
/-- Modelled from the spec: register index missing with `VIA6522.h`;
Timer B counter high. -/
def VIA_REG_T2_C_HI : Fin 16 := 0x9
/-- Modelled from the spec: register index missing with `VIA6522.h`;
the shift register, the index without bespoke logic. -/
def VIA_REG_SR : Fin 16 := 0xa
/-- Modelled from the spec: register index missing with `VIA6522.h`;
the mode (auxiliary control) register. -/
def VIA_REG_ACR : Fin 16 := 0xb
/-- Modelled from the spec: register index missing with `VIA6522.h`;
the peripheral control register. -/
def VIA_REG_PCR : Fin 16 := 0xc
/-- Modelled from the spec: register index missing with `VIA6522.h`;
the interrupt flag register. -/
def VIA_REG_IFR : Fin 16 := 0xd
/-- Modelled from the spec: register index missing with `VIA6522.h`;
the interrupt enable register. -/
def VIA_REG_IER : Fin 16 := 0xe
/-- Modelled from the spec: register index missing with `VIA6522.h`;
output register A (no-handshake variant). -/
def VIA_REG_ORA_NH : Fin 16 := 0xf

/-- Modelled from the spec: flag mask missing with `VIA6522.h`;
edge flag of control line 2 of Port A. -/
def VIA_I_CA2 : Nat := 0x01
/-- Modelled from the spec: flag mask missing with `VIA6522.h`;
edge flag of control line 1 of Port A. -/
def VIA_I_CA1 : Nat := 0x02
/-- Modelled from the spec: flag mask missing with `VIA6522.h`;
shift register flag. -/
def VIA_I_SR : Nat := 0x04
/-- Modelled from the spec: flag mask missing with `VIA6522.h`;
edge flag of control line 2 of Port B. -/
def VIA_I_CB2 : Nat := 0x08
/-- Modelled from the spec: flag mask missing with `VIA6522.h`;
edge flag of control line 1 of Port B. -/
def VIA_I_CB1 : Nat := 0x10
/-- Modelled from the spec: flag mask missing with `VIA6522.h`;
Timer B flag. -/
def VIA_I_T2 : Nat := 0x20
/-- Modelled from the spec: flag mask missing with `VIA6522.h`;
Timer A flag. -/
def VIA_I_T1 : Nat := 0x40
/-- Modelled from the spec: mask missing with `VIA6522.h`; bit 7, the
set/clear selector of enable-register writes. -/
def VIA_I_CTRL : Nat := 0x80

/-- Modelled from the spec: mode-register mask missing with `VIA6522.h`;
Timer B counts pulses instead of cycles. -/
def VIA_ACR_T2_COUNTPULSES : Nat := 0x20
/-- Modelled from the spec: mode-register mask missing with `VIA6522.h`;
Timer A free-run bit. -/
def VIA_ACR_T1_FREERUN : Nat := 0x40

/-- Modelled from the spec: the enumeration `VIAPort` of `VIA6522.h`, the
port identifier handed to the callbacks. -/
inductive VIAPort where
  | Port_PA
  | Port_PB
  | Port_CA2
  | Port_CB2
deriving DecidableEq, Repr

/-! ## Machine arithmetic -/

/-- Store into a `uint8_t`. -/
def u8 (x : Nat) : Nat := x % 256

/-- Store into a `uint16_t`. -/
def u16 (x : Nat) : Nat := x % 65536

/-- The 32-bit pattern of `~x` for an `int` operand `x`. -/
def cnot (x : Nat) : Nat := 0xFFFFFFFF ^^^ (x % 0x100000000)

/-- Store into a 32-bit `int`: the two's-complement value in
`-2^31 .. 2^31 - 1` congruent to `x` modulo `2^32`. -/
def wrap32 (x : Int) : Int := (x + 2147483648) % 4294967296 - 2147483648

/-! ## Chip state -/

/-- Modelled from the spec: the data members of class `MOS6522`, declared in
the missing `VIA6522.h` (counters are `int`, the Timer A latch `uint16_t`, all
other numeric members `uint8_t`, the fired markers `bool`). -/
structure MOS6522 where
  m_timer1Counter : Int
  m_timer1Latch : Nat
  m_timer2Counter : Int
  m_regs : Fin 16 → Nat
  m_timer2Latch : Nat
  m_CA1 : Nat
  m_CA1_prev : Nat
  m_CA2 : Nat
  m_CA2_prev : Nat
  m_CB1 : Nat
  m_CB1_prev : Nat
  m_CB2 : Nat
  m_CB2_prev : Nat
  m_IFR : Nat
  m_IER : Nat
  m_ACR : Nat
  m_timer1Triggered : Bool
  m_timer2Triggered : Bool

/-- The two port callbacks (`m_portOut`, `m_portIn`): code outside the chip
that may change the chip through its pointer. -/
structure Callbacks where
  portOut : VIAPort → MOS6522 → MOS6522
  portIn : VIAPort → MOS6522 → MOS6522

/-- Callbacks that do not touch the chip. -/
def quietCallbacks : Callbacks where
  portOut := fun _ s => s
  portIn := fun _ s => s

/-- Both callbacks leave the chip as they found it. -/
def Callbacks.Quiet (cb : Callbacks) : Prop :=
  ∀ p s, cb.portOut p s = s ∧ cb.portIn p s = s

/-- `MOS6522::reset`. -/
def reset (_s : MOS6522) : MOS6522 where
  m_timer1Counter := 0x0000
  m_timer1Latch := 0x0000
  m_timer2Counter := 0x0000
  m_timer2Latch := 0x00
  m_CA1 := 0
  m_CA1_prev := 0
  m_CA2 := 0
  m_CA2_prev := 0
  m_CB1 := 0
  m_CB1_prev := 0
  m_CB2 := 0
  m_CB2_prev := 0
  m_IFR := 0
  m_IER := 0
  m_ACR := 0
  m_timer1Triggered := false
  m_timer2Triggered := false
  m_regs := fun _ => 0

/-- The `CA2 control` switch of the `VIA_REG_PCR` case of `writeReg`. -/
def pcrCA2 (cb : Callbacks) (s : MOS6522) : MOS6522 :=
  if (s.m_regs VIA_REG_PCR >>> 1) &&& 0b111 = 0b110 then
    cb.portOut VIAPort.Port_CA2 { s with m_CA2 := 0 }
  else if (s.m_regs VIA_REG_PCR >>> 1) &&& 0b111 = 0b111 then
    cb.portOut VIAPort.Port_CA2 { s with m_CA2 := 1 }
  else s

/-- The `CB2 control` switch of the `VIA_REG_PCR` case of `writeReg`. -/
def pcrCB2 (cb : Callbacks) (s : MOS6522) : MOS6522 :=
  if (s.m_regs VIA_REG_PCR >>> 5) &&& 0b111 = 0b110 then
    cb.portOut VIAPort.Port_CB2 { s with m_CB2 := 0 }
  else if (s.m_regs VIA_REG_PCR >>> 5) &&& 0b111 = 0b111 then
    cb.portOut VIAPort.Port_CB2 { s with m_CB2 := 1 }
  else s

/-- `MOS6522::writeReg`.  The first statement `m_regs[reg] = value` runs
before the `switch`, for every register. -/
def writeReg (cb : Callbacks) (reg : Fin 16) (value : Nat) (s0 : MOS6522) : MOS6522 :=
  let s : MOS6522 := { s0 with m_regs := Function.update s0.m_regs reg (u8 value) }
  if reg = VIA_REG_T1_C_LO then
    { s with m_timer1Latch := u16 ((s.m_timer1Latch &&& 0xff00) ||| value) }
  else if reg = VIA_REG_T1_C_HI then
    let latch := u16 ((s.m_timer1Latch &&& 0x00ff) ||| (value <<< 8))
    { s with
      m_timer1Latch := latch
      m_timer1Counter := (((latch &&& 0x00ff) ||| (value <<< 8) : Nat) : Int)
      m_IFR := u8 (s.m_IFR &&& cnot VIA_I_T1)
      m_timer1Triggered := false }
  else if reg = VIA_REG_T1_L_LO then
    { s with m_timer1Latch := u16 ((s.m_timer1Latch &&& 0xff00) ||| value) }
  else if reg = VIA_REG_T1_L_HI then
    { s with
      m_timer1Latch := u16 ((s.m_timer1Latch &&& 0x00ff) ||| (value <<< 8))
      m_IFR := u8 (s.m_IFR &&& cnot VIA_I_T1) }
  else if reg = VIA_REG_T2_C_LO then
    { s with m_timer2Latch := u8 value }
  else if reg = VIA_REG_T2_C_HI then
    { s with
      m_timer2Counter := (((value <<< 8) ||| s.m_timer2Latch : Nat) : Int)
      m_IFR := u8 (s.m_IFR &&& cnot VIA_I_T2)
      m_timer2Triggered := false }
  else if reg = VIA_REG_ACR then
    { s with m_ACR := u8 value }
  else if reg = VIA_REG_PCR then
    let s1 : MOS6522 := { s with m_regs := Function.update s.m_regs VIA_REG_PCR (u8 value) }
    pcrCB2 cb (pcrCA2 cb s1)
  else if reg = VIA_REG_IFR then
    { s with m_IFR := u8 (s.m_IFR &&& (cnot value &&& 0x7f)) }
  else if reg = VIA_REG_IER then
    if value &&& VIA_I_CTRL ≠ 0 then
      { s with m_IER := u8 (s.m_IER ||| (value &&& 0x7f)) }
    else
      { s with m_IER := u8 (s.m_IER &&& (cnot value &&& 0x7f)) }
  else if reg = VIA_REG_DDRA then
    { s with m_regs := Function.update s.m_regs VIA_REG_DDRA (u8 value) }
  else if reg = VIA_REG_DDRB then
    { s with m_regs := Function.update s.m_regs VIA_REG_DDRB (u8 value) }
  else if reg = VIA_REG_ORA then
    let out := u8 (value ||| (s.m_regs VIA_REG_ORA &&& cnot (s.m_regs VIA_REG_DDRA)))
    let s1 : MOS6522 := { s with m_regs := Function.update s.m_regs VIA_REG_ORA out }
    let s2 := cb.portOut VIAPort.Port_PA s1
    let s3 : MOS6522 := { s2 with m_IFR := u8 (s2.m_IFR &&& cnot VIA_I_CA1) }
    { s3 with m_IFR := u8 (s3.m_IFR &&& cnot VIA_I_CA2) }
  else if reg = VIA_REG_ORA_NH then
    let out := u8 (value ||| (s.m_regs VIA_REG_ORA &&& cnot (s.m_regs VIA_REG_DDRA)))
    let s1 : MOS6522 := { s with m_regs := Function.update s.m_regs VIA_REG_ORA out }
    cb.portOut VIAPort.Port_PA s1
  else if reg = VIA_REG_ORB then
    let out := u8 (value ||| (s.m_regs VIA_REG_ORB &&& cnot (s.m_regs VIA_REG_DDRB)))
    let s1 : MOS6522 := { s with m_regs := Function.update s.m_regs VIA_REG_ORB out }
    let s2 := cb.portOut VIAPort.Port_PB s1
    let s3 : MOS6522 := { s2 with m_IFR := u8 (s2.m_IFR &&& cnot VIA_I_CB1) }
    { s3 with m_IFR := u8 (s3.m_IFR &&& cnot VIA_I_CB2) }
  else s

/-- `MOS6522::readReg`: the returned `int` and the state left behind. -/
def readReg (cb : Callbacks) (reg : Fin 16) (s : MOS6522) : Int × MOS6522 :=
  if reg = VIA_REG_T1_C_LO then
    let s1 : MOS6522 := { s with m_IFR := u8 (s.m_IFR &&& cnot VIA_I_T1) }
    (s1.m_timer1Counter % 256, s1)
  else if reg = VIA_REG_T1_C_HI then
    (s.m_timer1Counter >>> 8, s)
  else if reg = VIA_REG_T1_L_LO then
    (((s.m_timer1Latch &&& 0xff : Nat) : Int), s)
  else if reg = VIA_REG_T1_L_HI then
    (((s.m_timer1Latch >>> 8 : Nat) : Int), s)
  else if reg = VIA_REG_T2_C_LO then
    let s1 : MOS6522 := { s with m_IFR := u8 (s.m_IFR &&& cnot VIA_I_T2) }
    (s1.m_timer2Counter % 256, s1)
  else if reg = VIA_REG_T2_C_HI then
    (s.m_timer2Counter >>> 8, s)
  else if reg = VIA_REG_ACR then
    ((s.m_ACR : Int), s)
  else if reg = VIA_REG_PCR then
    ((s.m_regs VIA_REG_PCR : Int), s)
  else if reg = VIA_REG_IFR then
    (((s.m_IFR ||| (if s.m_IFR &&& s.m_IER ≠ 0 then 0x80 else 0) : Nat) : Int), s)
  else if reg = VIA_REG_IER then
    (((s.m_IER ||| 0x80 : Nat) : Int), s)
  else if reg = VIA_REG_DDRA then
    ((s.m_regs VIA_REG_DDRA : Int), s)
  else if reg = VIA_REG_DDRB then
    ((s.m_regs VIA_REG_DDRB : Int), s)
  else if reg = VIA_REG_ORA then
    let s1 : MOS6522 := { s with m_IFR := u8 (s.m_IFR &&& cnot VIA_I_CA1) }
    let s2 : MOS6522 := { s1 with m_IFR := u8 (s1.m_IFR &&& cnot VIA_I_CA2) }
    let s3 := cb.portIn VIAPort.Port_PA s2
    ((s3.m_regs VIA_REG_ORA : Int), s3)
  else if reg = VIA_REG_ORA_NH then
    let s1 := cb.portIn VIAPort.Port_PA s
    ((s1.m_regs VIA_REG_ORA : Int), s1)
  else if reg = VIA_REG_ORB then
    let s1 : MOS6522 := { s with m_IFR := u8 (s.m_IFR &&& cnot VIA_I_CB1) }
    let s2 : MOS6522 := { s1 with m_IFR := u8 (s1.m_IFR &&& cnot VIA_I_CB2) }
    let s3 := cb.portIn VIAPort.Port_PB s2
    ((s3.m_regs VIA_REG_ORB : Int), s3)
  else
    ((s.m_regs reg : Int), s)

/-- The `handle Timer 1` block of `MOS6522::tick`. -/
def tickTimer1 (cycles : Int) (s : MOS6522) : MOS6522 :=
  let s1 : MOS6522 := { s with m_timer1Counter := wrap32 (s.m_timer1Counter - cycles) }
  if s1.m_timer1Counter ≤ 0 then
    if s1.m_ACR &&& VIA_ACR_T1_FREERUN ≠ 0 then
      { s1 with
        m_timer1Counter :=
          wrap32 (s1.m_timer1Counter + (((s1.m_timer1Latch : Int) - 1) + 3))
        m_IFR := u8 (s1.m_IFR ||| VIA_I_T1) }
    else if ¬ s1.m_timer1Triggered then
      { s1 with
        m_timer1Counter := wrap32 (s1.m_timer1Counter + 0xFFFF)
        m_timer1Triggered := true
        m_IFR := u8 (s1.m_IFR ||| VIA_I_T1) }
    else
      { s1 with m_timer1Counter := s1.m_timer1Counter % 65536 }
  else s1

/-- The `handle Timer 2` block of `MOS6522::tick`. -/
def tickTimer2 (cycles : Int) (s : MOS6522) : MOS6522 :=
  if s.m_ACR &&& VIA_ACR_T2_COUNTPULSES = 0 then
    let s1 : MOS6522 := { s with m_timer2Counter := wrap32 (s.m_timer2Counter - cycles) }
    if s1.m_timer2Counter ≤ 0 ∧ ¬ s1.m_timer2Triggered then
      { s1 with
        m_timer2Counter := wrap32 (s1.m_timer2Counter + 0xFFFF)
        m_timer2Triggered := true
        m_IFR := u8 (s1.m_IFR ||| VIA_I_T2) }
    else s1
  else s

/-- The `handle CA1` block of `MOS6522::tick`. -/
def tickCA1 (s : MOS6522) : MOS6522 :=
  if s.m_CA1 ≠ s.m_CA1_prev then
    let s1 : MOS6522 :=
      if (s.m_regs VIA_REG_PCR &&& 1 ≠ 0 ∧ s.m_CA1 ≠ 0) ∨
          (¬ (s.m_regs VIA_REG_PCR &&& 1 ≠ 0) ∧ ¬ (s.m_CA1 ≠ 0)) then
        { s with m_IFR := u8 (s.m_IFR ||| VIA_I_CA1) }
      else s
    { s1 with m_CA1_prev := s1.m_CA1 }
  else s

/-- `MOS6522::tick`: the returned `bool` and the state left behind. -/
def tick (cycles : Int) (s : MOS6522) : Bool × MOS6522 :=
  let s3 := tickCA1 (tickTimer2 cycles (tickTimer1 cycles s))
  (decide (s3.m_IER &&& s3.m_IFR &&& 0x7f ≠ 0), s3)

/-- `MOS6522::MOS6522`: the constructor stores the callbacks and calls
`reset()`, which assigns every data member. -/
def powerOn : MOS6522 :=
  reset ⟨0, 0, 0, fun _ => 0, 0, 0, 0, 0, 0, 0, 0, 0, 0, 0, 0, 0, false, false⟩

/-! ## Sequences of accesses -/

/-- One access to the chip through its public entry points. -/
inductive Op where
  | write (reg : Fin 16) (value : Nat)
  | read (reg : Fin 16)
  | tick (cycles : Int)

/-- The state an access leaves behind. -/
def step (cb : Callbacks) (s : MOS6522) : Op → MOS6522
  | Op.write reg value => writeReg cb reg value s
  | Op.read reg => (readReg cb reg s).2
  | Op.tick cycles => (tick cycles s).2

/-- The state a sequence of accesses leaves behind. -/
def run (cb : Callbacks) (s : MOS6522) (ops : List Op) : MOS6522 :=
  ops.foldl (step cb) s

/-- An access that is neither a write to Timer A counter-high nor a write to
the mode register. -/
def Op.keepsArming : Op → Prop
  | Op.write reg _ => reg ≠ VIA_REG_T1_C_HI ∧ reg ≠ VIA_REG_ACR
  | Op.read _ => True
  | Op.tick _ => True

/-- States reachable from `reset` through `writeReg` with byte values,
`readReg` and `tick`. -/
inductive Reachable (cb : Callbacks) : MOS6522 → Prop
  | reset (s : MOS6522) : Reachable cb (reset s)
  | write {s : MOS6522} (reg : Fin 16) (value : Nat) :
      Reachable cb s → value < 256 → Reachable cb (writeReg cb reg value s)
  | read {s : MOS6522} (reg : Fin 16) :
      Reachable cb s → Reachable cb (readReg cb reg s).2
  | tick {s : MOS6522} (cycles : Int) :
      Reachable cb s → Reachable cb (tick cycles s).2

/-- The state after `n` successive calls `tick(1)`. -/
def ticks1 (n : Nat) (s : MOS6522) : MOS6522 :=
  (fun t => (tick 1 t).2)^[n] s

/-- One free-run period as a program drives it: read Timer A counter-low
(which clears the Timer A flag), then `latch + 2` single-cycle ticks. -/
def freerunPeriod (cb : Callbacks) (s : MOS6522) : MOS6522 :=
  ticks1 (s.m_timer1Latch + 2) (readReg cb VIA_REG_T1_C_LO s).2

/-- An access that is not a write to Timer B counter-high. -/
def Op.keepsTimer2 : Op → Prop
  | Op.write reg _ => reg ≠ VIA_REG_T2_C_HI
  | Op.read _ => True
  | Op.tick _ => True

/-- Probe callbacks that count their invocations in members the chip code
never reads or writes outside `reset`: output-changed calls for control line 2
of Port A in `m_CA2_prev`, for control line 2 of Port B in `m_CB2_prev`, for
the two data ports in `m_CB1_prev`; input-requested calls do nothing. -/
def countingCallbacks : Callbacks where
  portOut := fun p s =>
    match p with
    | VIAPort.Port_CA2 => { s with m_CA2_prev := s.m_CA2_prev + 1 }
    | VIAPort.Port_CB2 => { s with m_CB2_prev := s.m_CB2_prev + 1 }
    | VIAPort.Port_PA => { s with m_CB1_prev := s.m_CB1_prev + 1 }
    | VIAPort.Port_PB => { s with m_CB1_prev := s.m_CB1_prev + 1 }
  portIn := fun _ s => s

end VIA6522

/-! # The machine: expansion RAM windows and character injection

Embedding of the parts of class `Machine` (`examples/VGA/VIC20/src/machine.h`)
that the claims on memory expansion and on `type` are about. -/

namespace VIC20

/-- The enumeration `RAMExpansionOption` of `machine.h`. -/
inductive RAMExpansionOption where
  | RAM_unexp
  | RAM_3K
  | RAM_8K
  | RAM_16K
  | RAM_24K
  | RAM_27K
  | RAM_32K
  | RAM_35K
deriving DecidableEq, Repr

/-- The members of class `Machine` used here: `m_expRAM[5]` (a block is
enabled when its buffer pointer is set), `m_RAMExpansion`, and
`m_typingString` (`none` for the null pointer). -/
structure Machine where
  m_expRAM : Fin 5 → Bool
  m_RAMExpansion : RAMExpansionOption
  m_typingString : Option String

/-- First and last address of each expansion block, from the comment on
`enableRAMBlock` and `m_expRAM` in `machine.h`. -/
def expRAMRange : Fin 5 → Nat × Nat
  | 0 => (0x0400, 0x0fff)
  | 1 => (0x2000, 0x3fff)
  | 2 => (0x4000, 0x5fff)
  | 3 => (0x6000, 0x7fff)
  | 4 => (0xA000, 0xBfff)

/-- Modelled from the spec: `Machine::enableRAMBlock` is declared in
`machine.h` but defined in `machine.cpp`, which is not among the sources;
enabling a window gives it backing storage, disabling marks it unmapped. -/
def enableRAMBlock (block : Fin 5) (enabled : Bool) (m : Machine) : Machine :=
  { m with m_expRAM := Function.update m.m_expRAM block enabled }

/-- Modelled from the spec: the window set of each expansion option, from the
table of `setExpansionOption` (windows A to E are blocks 0 to 4); the body of
`Machine::setRAMExpansion` is in the missing `machine.cpp`. -/
def expansionWindows : RAMExpansionOption → List (Fin 5)
  | RAMExpansionOption.RAM_unexp => []
  | RAMExpansionOption.RAM_3K => [0]
  | RAMExpansionOption.RAM_8K => [1]
  | RAMExpansionOption.RAM_16K => [1, 2]
  | RAMExpansionOption.RAM_24K => [1, 2, 3]
  | RAMExpansionOption.RAM_27K => [0, 1, 2, 3]
  | RAMExpansionOption.RAM_32K => [1, 2, 3, 4]
  | RAMExpansionOption.RAM_35K => [0, 1, 2, 3, 4]

/-- Modelled from the spec: `Machine::setRAMExpansion` (defined in the missing
`machine.cpp`): enables exactly the window set mapped from the option, disables
every window not in it, and records the option. -/
def setRAMExpansion (value : RAMExpansionOption) (m : Machine) : Machine :=
  { ([0, 1, 2, 3, 4] : List (Fin 5)).foldl
      (fun acc block => enableRAMBlock block (decide (block ∈ expansionWindows value)) acc) m
    with m_RAMExpansion := value }

/-- `Machine::RAMExpansion`. -/
def RAMExpansion (m : Machine) : RAMExpansionOption := m.m_RAMExpansion

/-- The expansion blocks that are enabled, in increasing order. -/
def enabledBlocks (m : Machine) : List (Fin 5) :=
  ([0, 1, 2, 3, 4] : List (Fin 5)).filter (fun block => m.m_expRAM block)

/-- `Machine::type`: `m_typingString = str`. -/
def Machine.type (str : String) (m : Machine) : Machine :=
  { m with m_typingString := some str }

end VIC20

namespace VIA6522

/-! ## Bit-level facts about the machine arithmetic -/

theorem testBit_u8 (x i : Nat) : (u8 x).testBit i = (decide (i < 8) && x.testBit i) := by
  have e : u8 x = x % 2 ^ 8 := rfl
  rw [e, Nat.testBit_mod_two_pow]

theorem testBit_u16 (x i : Nat) : (u16 x).testBit i = (decide (i < 16) && x.testBit i) := by
  have e : u16 x = x % 2 ^ 16 := rfl
  rw [e, Nat.testBit_mod_two_pow]

theorem testBit_cnot (x i : Nat) :
    (cnot x).testBit i = (decide (i < 32) && !x.testBit i) := by
  have e : cnot x = (2 ^ 32 - 1) ^^^ (x % 2 ^ 32) := rfl
  rw [e, Nat.testBit_xor, Nat.testBit_two_pow_sub_one, Nat.testBit_mod_two_pow]
  by_cases h : i < 32 <;> simp [h]

theorem testBit_0x7f (i : Nat) : Nat.testBit 0x7f i = decide (i < 7) := by
  have e : (0x7f : Nat) = 2 ^ 7 - 1 := rfl
  rw [e, Nat.testBit_two_pow_sub_one]

theorem testBit_0xff (i : Nat) : Nat.testBit 0xff i = decide (i < 8) := by
  have e : (0xff : Nat) = 2 ^ 8 - 1 := rfl
  rw [e, Nat.testBit_two_pow_sub_one]

theorem u8_lt (x : Nat) : u8 x < 256 := Nat.mod_lt _ (by decide)

theorem u8_of_lt {x : Nat} (h : x < 256) : u8 x = x := Nat.mod_eq_of_lt h

theorem u16_of_lt {x : Nat} (h : x < 65536) : u16 x = x := Nat.mod_eq_of_lt h

/-- A single-bit mask test `x & 2^k` is non-zero exactly when bit `k` is set. -/
theorem and_two_pow_ne_zero (x k : Nat) : x &&& 2 ^ k ≠ 0 ↔ x.testBit k = true := by
  constructor
  · intro h
    by_contra hb
    apply h
    apply Nat.eq_of_testBit_eq
    intro i
    rw [Nat.testBit_and, Nat.testBit_two_pow, Nat.zero_testBit]
    by_cases hki : k = i
    · subst hki
      simp [hb]
    · simp [hki]
  · intro hb h
    have := congrArg (fun y => Nat.testBit y k) h
    simp [Nat.testBit_and, Nat.testBit_two_pow, hb] at this

theorem flag_T1_iff (x : Nat) : x &&& VIA_I_T1 ≠ 0 ↔ x.testBit 6 = true :=
  and_two_pow_ne_zero x 6

theorem flag_T2_iff (x : Nat) : x &&& VIA_I_T2 ≠ 0 ↔ x.testBit 5 = true :=
  and_two_pow_ne_zero x 5

theorem flag_CA1_iff (x : Nat) : x &&& VIA_I_CA1 ≠ 0 ↔ x.testBit 1 = true :=
  and_two_pow_ne_zero x 1

theorem flag_CA2_iff (x : Nat) : x &&& VIA_I_CA2 ≠ 0 ↔ x.testBit 0 = true :=
  and_two_pow_ne_zero x 0

theorem testBit_I_T1 (i : Nat) : VIA_I_T1.testBit i = decide (6 = i) := by
  have e : VIA_I_T1 = 2 ^ 6 := rfl
  rw [e, Nat.testBit_two_pow]

theorem testBit_I_T2 (i : Nat) : VIA_I_T2.testBit i = decide (5 = i) := by
  have e : VIA_I_T2 = 2 ^ 5 := rfl
  rw [e, Nat.testBit_two_pow]

theorem testBit_I_CB1 (i : Nat) : VIA_I_CB1.testBit i = decide (4 = i) := by
  have e : VIA_I_CB1 = 2 ^ 4 := rfl
  rw [e, Nat.testBit_two_pow]

theorem testBit_I_CB2 (i : Nat) : VIA_I_CB2.testBit i = decide (3 = i) := by
  have e : VIA_I_CB2 = 2 ^ 3 := rfl
  rw [e, Nat.testBit_two_pow]

theorem testBit_I_CA1 (i : Nat) : VIA_I_CA1.testBit i = decide (1 = i) := by
  have e : VIA_I_CA1 = 2 ^ 1 := rfl
  rw [e, Nat.testBit_two_pow]

theorem testBit_I_CA2 (i : Nat) : VIA_I_CA2.testBit i = decide (0 = i) := by
  have e : VIA_I_CA2 = 2 ^ 0 := rfl
  rw [e, Nat.testBit_two_pow]

theorem testBit_0x80 (i : Nat) : Nat.testBit 0x80 i = decide (7 = i) := by
  have e : (0x80 : Nat) = 2 ^ 7 := rfl
  rw [e, Nat.testBit_two_pow]

/-- A value below `2^n` has no bit at position `n` or above. -/
theorem testBit_eq_false_of_lt {x n i : Nat} (h : x < 2 ^ n) (hi : n ≤ i) :
    x.testBit i = false :=
  Nat.testBit_lt_two_pow (lt_of_lt_of_le h (Nat.pow_le_pow_right (by decide) hi))

/-! ## The register constants and the quiet callbacks -/

theorem reg_defs :
    VIA_REG_ORB = 0 ∧ VIA_REG_ORA = 1 ∧ VIA_REG_DDRB = 2 ∧ VIA_REG_DDRA = 3 ∧
    VIA_REG_T1_C_LO = 4 ∧ VIA_REG_T1_C_HI = 5 ∧ VIA_REG_T1_L_LO = 6 ∧ VIA_REG_T1_L_HI = 7 ∧
    VIA_REG_T2_C_LO = 8 ∧ VIA_REG_T2_C_HI = 9 ∧ VIA_REG_SR = 10 ∧ VIA_REG_ACR = 11 ∧
    VIA_REG_PCR = 12 ∧ VIA_REG_IFR = 13 ∧ VIA_REG_IER = 14 ∧ VIA_REG_ORA_NH = 15 :=
  ⟨rfl, rfl, rfl, rfl, rfl, rfl, rfl, rfl, rfl, rfl, rfl, rfl, rfl, rfl, rfl, rfl⟩

theorem quietCallbacks_quiet : quietCallbacks.Quiet := fun _ _ => ⟨rfl, rfl⟩

theorem quiet_out {cb : Callbacks} (h : cb.Quiet) (p : VIAPort) (s : MOS6522) :
    cb.portOut p s = s := (h p s).1

theorem quiet_in {cb : Callbacks} (h : cb.Quiet) (p : VIAPort) (s : MOS6522) :
    cb.portIn p s = s := (h p s).2

/-! ## What single accesses do to the output register A and to the flags -/

/-- The handshake write of output register A leaves the written byte in the
register: the cell was already overwritten when the masked expression reads it. -/
theorem writeReg_ORA_regs (cb : Callbacks) (h : cb.Quiet) (v : Nat) (s : MOS6522) :
    (writeReg cb VIA_REG_ORA v s).m_regs VIA_REG_ORA = u8 v := by
  have e : (writeReg cb VIA_REG_ORA v s).m_regs VIA_REG_ORA =
      u8 (v ||| (u8 v &&& cnot (s.m_regs VIA_REG_DDRA))) := by
    simp [writeReg, reg_defs, quiet_out h]
  rw [e]
  apply Nat.eq_of_testBit_eq
  intro i
  simp only [testBit_u8, Nat.testBit_or, Nat.testBit_and, testBit_cnot]
  cases Nat.testBit v i <;> simp

theorem writeReg_ORA_IFR (cb : Callbacks) (h : cb.Quiet) (v : Nat) (s : MOS6522) :
    (writeReg cb VIA_REG_ORA v s).m_IFR =
      u8 (u8 (s.m_IFR &&& cnot VIA_I_CA1) &&& cnot VIA_I_CA2) := by
  simp [writeReg, reg_defs, quiet_out h]

theorem writeReg_ORA_IER (cb : Callbacks) (h : cb.Quiet) (v : Nat) (s : MOS6522) :
    (writeReg cb VIA_REG_ORA v s).m_IER = s.m_IER := by
  simp [writeReg, reg_defs, quiet_out h]

theorem readReg_IFR (cb : Callbacks) (s : MOS6522) :
    readReg cb VIA_REG_IFR s =
      (((s.m_IFR ||| (if s.m_IFR &&& s.m_IER ≠ 0 then 0x80 else 0) : Nat) : Int), s) := rfl

theorem readReg_ORA_fst (cb : Callbacks) (h : cb.Quiet) (s : MOS6522) :
    (readReg cb VIA_REG_ORA s).1 = (s.m_regs VIA_REG_ORA : Int) := by
  simp [readReg, reg_defs, quiet_in h]

/-- Bits of the handshake-cleared flag byte. -/
theorem testBit_clear_CA (x i : Nat) :
    (u8 (u8 (x &&& cnot VIA_I_CA1) &&& cnot VIA_I_CA2)).testBit i =
      (decide (i < 8) && x.testBit i && !decide (i = 1) && !decide (i = 0)) := by
  simp only [testBit_u8, Nat.testBit_and, testBit_cnot, testBit_I_CA1, testBit_I_CA2]
  by_cases h8 : i < 8
  · have h32 : i < 32 := by omega
    by_cases h1 : i = 1
    · subst h1; simp
    · by_cases h0 : i = 0
      · subst h0; simp
      · have h1' : ¬ 1 = i := fun e => h1 e.symm
        have h0' : ¬ 0 = i := fun e => h0 e.symm
        simp [h8, h32, h1, h0, h1', h0']
  · simp [h8]

/-! ## C1: handshake write of output register A -/

/-- C1 (code at the claim's witness): with direction A = 0b00001111 and the
stored output register A = 0xF0 (set up through the register interface), the
handshake write of 0xAB leaves 0xAB in the stored register, and a read returns
0xAB, whereas the masked store `(v AND d) OR (p AND NOT d)` is 0xFB. -/
theorem writeReg_ORA_clobbers_previous :
    (writeReg quietCallbacks VIA_REG_DDRA 0x0F
        (writeReg quietCallbacks VIA_REG_ORA 0xF0
          (writeReg quietCallbacks VIA_REG_DDRA 0xFF powerOn))).m_regs VIA_REG_DDRA = 0x0F ∧
    (writeReg quietCallbacks VIA_REG_DDRA 0x0F
        (writeReg quietCallbacks VIA_REG_ORA 0xF0
          (writeReg quietCallbacks VIA_REG_DDRA 0xFF powerOn))).m_regs VIA_REG_ORA = 0xF0 ∧
    (writeReg quietCallbacks VIA_REG_ORA 0xAB
        (writeReg quietCallbacks VIA_REG_DDRA 0x0F
          (writeReg quietCallbacks VIA_REG_ORA 0xF0
            (writeReg quietCallbacks VIA_REG_DDRA 0xFF powerOn)))).m_regs VIA_REG_ORA = 0xAB ∧
    (readReg quietCallbacks VIA_REG_ORA
        (writeReg quietCallbacks VIA_REG_ORA 0xAB
          (writeReg quietCallbacks VIA_REG_DDRA 0x0F
            (writeReg quietCallbacks VIA_REG_ORA 0xF0
              (writeReg quietCallbacks VIA_REG_DDRA 0xFF powerOn))))).1 = 0xAB ∧
    (0xAB &&& 0x0F) ||| (0xF0 &&& (0xFF ^^^ 0x0F)) = 0xFB := by
  refine ⟨by decide, by decide, by decide, by decide, by decide⟩

/-! ## C4: handshake write then reads of the flag register and of port A -/

/-- C4: with quiet callbacks, for every byte `v`, after
`writeReg(VIA_REG_ORA, v)` the value read from the flag register has the CA1
and CA2 bits clear and every other bit among 0..6 as the stored flags had it
before the write, and the following read of output register A returns `v`
(whatever the direction register and the previous flags were, in particular
with direction A = 0xFF and both Port A edge flags set). -/
theorem handshake_write_then_reads (cb : Callbacks) (hq : cb.Quiet) (s : MOS6522) (v : Nat)
    (hv : v < 256) :
    ((readReg cb VIA_REG_IFR (writeReg cb VIA_REG_ORA v s)).1.toNat &&& VIA_I_CA1 = 0) ∧
    ((readReg cb VIA_REG_IFR (writeReg cb VIA_REG_ORA v s)).1.toNat &&& VIA_I_CA2 = 0) ∧
    (∀ i, 2 ≤ i → i < 7 →
      (readReg cb VIA_REG_IFR (writeReg cb VIA_REG_ORA v s)).1.toNat.testBit i =
        s.m_IFR.testBit i) ∧
    (readReg cb VIA_REG_ORA (readReg cb VIA_REG_IFR (writeReg cb VIA_REG_ORA v s)).2).1 =
      (v : Int) := by
  have hbit : ∀ i, (readReg cb VIA_REG_IFR (writeReg cb VIA_REG_ORA v s)).1.toNat.testBit i =
      ((decide (i < 8) && s.m_IFR.testBit i && !decide (i = 1) && !decide (i = 0)) ||
        ((if (writeReg cb VIA_REG_ORA v s).m_IFR &&& (writeReg cb VIA_REG_ORA v s).m_IER ≠ 0
            then 0x80 else 0 : Nat).testBit i)) := by
    intro i
    rw [readReg_IFR]
    simp only [Int.toNat_ofNat, Nat.testBit_or]
    rw [writeReg_ORA_IFR cb hq, testBit_clear_CA]
  have h80 : ∀ i, i < 7 →
      (if (writeReg cb VIA_REG_ORA v s).m_IFR &&& (writeReg cb VIA_REG_ORA v s).m_IER ≠ 0
        then 0x80 else 0 : Nat).testBit i = false := by
    intro i hi
    split
    · rw [testBit_0x80]; simp; omega
    · simp
  refine ⟨?_, ?_, ?_, ?_⟩
  · by_contra hne
    have := (flag_CA1_iff _).1 hne
    rw [hbit 1, h80 1 (by decide)] at this
    simp at this
  · by_contra hne
    have := (flag_CA2_iff _).1 hne
    rw [hbit 0, h80 0 (by decide)] at this
    simp at this
  · intro i h2 h7
    rw [hbit i, h80 i h7]
    have h8 : i < 8 := by omega
    have h1 : i ≠ 1 := by omega
    have h0 : i ≠ 0 := by omega
    simp [h8, h1, h0]
  · rw [readReg_IFR, readReg_ORA_fst cb hq, writeReg_ORA_regs cb hq, u8_of_lt hv]

/-- C4 at the spec's example: direction A = 0xFF, both Port A edge flags (and
the Timer A flag) set, `v = 0x3C`. -/
theorem handshake_write_then_reads_witness :
    (0x3C < 256) ∧
    ((readReg quietCallbacks VIA_REG_IFR (writeReg quietCallbacks VIA_REG_ORA 0x3C
        { writeReg quietCallbacks VIA_REG_DDRA 0xFF powerOn with m_IFR := 0x43 })).1.toNat
      &&& VIA_I_CA1 = 0) ∧
    ((readReg quietCallbacks VIA_REG_IFR (writeReg quietCallbacks VIA_REG_ORA 0x3C
        { writeReg quietCallbacks VIA_REG_DDRA 0xFF powerOn with m_IFR := 0x43 })).1.toNat
      &&& VIA_I_CA2 = 0) ∧
    (readReg quietCallbacks VIA_REG_ORA (readReg quietCallbacks VIA_REG_IFR
        (writeReg quietCallbacks VIA_REG_ORA 0x3C
          { writeReg quietCallbacks VIA_REG_DDRA 0xFF powerOn with m_IFR := 0x43 })).2).1 =
      0x3C :=
  have h := handshake_write_then_reads quietCallbacks quietCallbacks_quiet
    { writeReg quietCallbacks VIA_REG_DDRA 0xFF powerOn with m_IFR := 0x43 } 0x3C (by decide)
  ⟨by decide, h.1, h.2.1, h.2.2.2⟩

/-! ## C8: the interrupt enable register -/

theorem writeReg_IER_eq (cb : Callbacks) (v : Nat) (s : MOS6522) :
    writeReg cb VIA_REG_IER v s =
      if v &&& VIA_I_CTRL ≠ 0 then
        { s with
          m_regs := Function.update s.m_regs VIA_REG_IER (u8 v)
          m_IER := u8 (s.m_IER ||| (v &&& 0x7f)) }
      else
        { s with
          m_regs := Function.update s.m_regs VIA_REG_IER (u8 v)
          m_IER := u8 (s.m_IER &&& (cnot v &&& 0x7f)) } := rfl

theorem writeReg_IER_IER (cb : Callbacks) (v : Nat) (s : MOS6522) :
    (writeReg cb VIA_REG_IER v s).m_IER =
      if v &&& VIA_I_CTRL ≠ 0 then u8 (s.m_IER ||| (v &&& 0x7f))
      else u8 (s.m_IER &&& (cnot v &&& 0x7f)) := by
  rw [writeReg_IER_eq]
  split <;> rfl

theorem writeReg_IER_IFR (cb : Callbacks) (v : Nat) (s : MOS6522) :
    (writeReg cb VIA_REG_IER v s).m_IFR = s.m_IFR := by
  rw [writeReg_IER_eq]
  split <;> rfl

theorem readReg_IER (cb : Callbacks) (s : MOS6522) :
    readReg cb VIA_REG_IER s = (((s.m_IER ||| 0x80 : Nat) : Int), s) := rfl

/-- C8: for stored enables `e < 128` and a written byte `v`, after
`writeReg(VIA_REG_IER, v)` the stored enables are `e OR (v AND 0x7F)` when bit 7
of `v` is 1 and `e AND (NOT v on bits 0..6)` when bit 7 of `v` is 0; the stored
enables stay below 128; `readReg(VIA_REG_IER)`, before as after the write,
returns the stored enables with bit 7 set and changes nothing; the write leaves
the flag register as it was. -/
theorem IER_set_clear_protocol (cb : Callbacks) (s : MOS6522) (v : Nat)
    (he : s.m_IER < 128) (hv : v < 256) :
    (v.testBit 7 = true →
      (writeReg cb VIA_REG_IER v s).m_IER = s.m_IER ||| (v &&& 0x7F)) ∧
    (v.testBit 7 = false →
      (writeReg cb VIA_REG_IER v s).m_IER = s.m_IER &&& (0x7F ^^^ v)) ∧
    (writeReg cb VIA_REG_IER v s).m_IER < 128 ∧
    readReg cb VIA_REG_IER s = (((s.m_IER ||| 0x80 : Nat) : Int), s) ∧
    readReg cb VIA_REG_IER (writeReg cb VIA_REG_IER v s) =
      ((((writeReg cb VIA_REG_IER v s).m_IER ||| 0x80 : Nat) : Int),
        writeReg cb VIA_REG_IER v s) ∧
    (writeReg cb VIA_REG_IER v s).m_IFR = s.m_IFR := by
  have hctrl : v &&& VIA_I_CTRL ≠ 0 ↔ v.testBit 7 = true := and_two_pow_ne_zero v 7
  have hset : v.testBit 7 = true →
      (writeReg cb VIA_REG_IER v s).m_IER = s.m_IER ||| (v &&& 0x7F) := by
    intro h7
    rw [writeReg_IER_IER, if_pos (hctrl.2 h7)]
    apply u8_of_lt
    have h1 : s.m_IER < 2 ^ 8 := by omega
    have h2 : v &&& 0x7F < 2 ^ 8 := lt_of_le_of_lt Nat.and_le_right (by decide)
    exact Nat.or_lt_two_pow h1 h2
  have hclr : v.testBit 7 = false →
      (writeReg cb VIA_REG_IER v s).m_IER = s.m_IER &&& (0x7F ^^^ v) := by
    intro h7
    have hn : ¬ (v &&& VIA_I_CTRL ≠ 0) := by
      rw [hctrl, h7]; simp
    rw [writeReg_IER_IER, if_neg hn]
    apply Nat.eq_of_testBit_eq
    intro i
    simp only [testBit_u8, Nat.testBit_and, testBit_cnot, testBit_0x7f, Nat.testBit_xor]
    by_cases hi : i < 7
    · have h8 : i < 8 := by omega
      have h32 : i < 32 := by omega
      simp [hi, h8, h32]
    · have hvi : v.testBit i = false := by
        by_cases h7i : i = 7
        · subst h7i; exact h7
        · exact testBit_eq_false_of_lt (n := 8) (by simpa using hv) (by omega)
      simp [hi, hvi]
  have hlt : (writeReg cb VIA_REG_IER v s).m_IER < 128 := by
    have h27 : (128 : Nat) = 2 ^ 7 := rfl
    by_cases h7 : v.testBit 7 = true
    · rw [hset h7, h27]
      exact Nat.or_lt_two_pow (by omega) (lt_of_le_of_lt Nat.and_le_right (by decide))
    · rw [hclr (by simpa using h7)]
      exact lt_of_le_of_lt Nat.and_le_left he
  exact ⟨hset, hclr, hlt, readReg_IER cb s, readReg_IER cb _, writeReg_IER_IFR cb v s⟩

/-- C8 at a concrete input: enables 0x22, writing 0xC1 sets bits, read-back
0xE3. -/
theorem IER_set_clear_protocol_witness :
    (({ powerOn with m_IER := 0x22 } : MOS6522).m_IER < 128) ∧ (0xC1 < 256) ∧
    (writeReg quietCallbacks VIA_REG_IER 0xC1 { powerOn with m_IER := 0x22 }).m_IER = 0x63 ∧
    (readReg quietCallbacks VIA_REG_IER
      (writeReg quietCallbacks VIA_REG_IER 0xC1 { powerOn with m_IER := 0x22 })).1 = 0xE3 :=
  have h := IER_set_clear_protocol quietCallbacks { powerOn with m_IER := 0x22 } 0xC1
    (by decide) (by decide)
  ⟨by decide, by decide, (h.1 (by decide)).trans (by decide),
    (congrArg Prod.fst h.2.2.2.2.1).trans (by decide)⟩

/-! ## C9: the interrupt flag register is write-one-to-clear -/

theorem writeReg_IFR_eq (cb : Callbacks) (v : Nat) (s : MOS6522) :
    writeReg cb VIA_REG_IFR v s =
      { s with
        m_regs := Function.update s.m_regs VIA_REG_IFR (u8 v)
        m_IFR := u8 (s.m_IFR &&& (cnot v &&& 0x7f)) } := rfl

/-- C9: after `writeReg(VIA_REG_IFR, v)` every stored flag bit `i` among 0..6
is the old bit AND NOT bit `i` of `v`; the stored flags are below 128; no bit
of the stored flags is set that was not set before; the enables are unchanged;
and writing the same `v` a second time leaves the same state as writing it
once. -/
theorem IFR_write_one_to_clear (cb : Callbacks) (s : MOS6522) (v : Nat) :
    (∀ i, i < 7 →
      (writeReg cb VIA_REG_IFR v s).m_IFR.testBit i = (s.m_IFR.testBit i && !v.testBit i)) ∧
    (writeReg cb VIA_REG_IFR v s).m_IFR < 128 ∧
    (∀ i, (writeReg cb VIA_REG_IFR v s).m_IFR.testBit i = true → s.m_IFR.testBit i = true) ∧
    (writeReg cb VIA_REG_IFR v s).m_IER = s.m_IER ∧
    writeReg cb VIA_REG_IFR v (writeReg cb VIA_REG_IFR v s) = writeReg cb VIA_REG_IFR v s := by
  have hbit : ∀ i, (u8 (s.m_IFR &&& (cnot v &&& 0x7f))).testBit i =
      (decide (i < 7) && (s.m_IFR.testBit i && !v.testBit i)) := by
    intro i
    simp only [testBit_u8, Nat.testBit_and, testBit_cnot, testBit_0x7f]
    by_cases hi : i < 7
    · have h8 : i < 8 := by omega
      have h32 : i < 32 := by omega
      simp [hi, h8, h32]
    · simp [hi]
  refine ⟨?_, ?_, ?_, rfl, ?_⟩
  · intro i hi
    rw [writeReg_IFR_eq]
    simp only [hbit, hi, decide_True, Bool.true_and]
  · rw [writeReg_IFR_eq]
    apply Nat.lt_pow_two_of_testBit (n := 7)
    intro i hi
    have : ¬ i < 7 := by omega
    simp only [hbit, this, decide_False, Bool.false_and]
  · intro i h
    rw [writeReg_IFR_eq] at h
    simp only [hbit] at h
    simp only [Bool.and_eq_true] at h
    exact h.2.1
  · rw [writeReg_IFR_eq, writeReg_IFR_eq]
    have hidem : u8 (u8 (s.m_IFR &&& (cnot v &&& 0x7f)) &&& (cnot v &&& 0x7f)) =
        u8 (s.m_IFR &&& (cnot v &&& 0x7f)) := by
      apply Nat.eq_of_testBit_eq
      intro i
      simp only [testBit_u8, Nat.testBit_and, testBit_cnot, testBit_0x7f]
      cases decide (i < 8) <;> cases s.m_IFR.testBit i <;> cases v.testBit i <;>
        cases decide (i < 32) <;> cases decide (i < 7) <;> rfl
    simp only [Function.update_idem, hidem]

/-- C9 at a concrete input: flags 0x63, writing 0x41 clears bits 6 and 0 and
leaves 0x22. -/
theorem IFR_write_one_to_clear_witness :
    (writeReg quietCallbacks VIA_REG_IFR 0x41 { powerOn with m_IFR := 0x63 }).m_IFR = 0x22 ∧
    (writeReg quietCallbacks VIA_REG_IFR 0x41 { powerOn with m_IFR := 0x63 }).m_IFR < 128 ∧
    writeReg quietCallbacks VIA_REG_IFR 0x41
        (writeReg quietCallbacks VIA_REG_IFR 0x41 { powerOn with m_IFR := 0x63 }) =
      writeReg quietCallbacks VIA_REG_IFR 0x41 { powerOn with m_IFR := 0x63 } :=
  have h := IFR_write_one_to_clear quietCallbacks { powerOn with m_IFR := 0x63 } 0x41
  ⟨by decide, h.2.1, h.2.2.2.2⟩

/-! ## The three blocks of `tick` -/

theorem tick_eq (c : Int) (s : MOS6522) :
    tick c s =
      (decide ((tickCA1 (tickTimer2 c (tickTimer1 c s))).m_IER &&&
          (tickCA1 (tickTimer2 c (tickTimer1 c s))).m_IFR &&& 0x7f ≠ 0),
        tickCA1 (tickTimer2 c (tickTimer1 c s))) := rfl

/-- Inside the range of `int` the 32-bit store changes nothing. -/
theorem wrap32_eq {x : Int} (hlo : -2147483648 ≤ x) (hhi : x < 2147483648) : wrap32 x = x := by
  unfold wrap32
  omega

/-- The 32-bit store always lands in the range of `int`. -/
theorem wrap32_range (x : Int) : -2147483648 ≤ wrap32 x ∧ wrap32 x < 2147483648 := by
  unfold wrap32
  omega

theorem tickTimer1_pos (c : Int) (s : MOS6522) (hhi : s.m_timer1Counter - c < 2147483648)
    (h : 0 < s.m_timer1Counter - c) :
    tickTimer1 c s = { s with m_timer1Counter := s.m_timer1Counter - c } := by
  have e : wrap32 (s.m_timer1Counter - c) = s.m_timer1Counter - c :=
    wrap32_eq (by omega) hhi
  unfold tickTimer1
  dsimp only
  rw [e, if_neg (not_le.2 h)]

theorem tickTimer1_freerun (c : Int) (s : MOS6522)
    (hlo : -2147483648 ≤ s.m_timer1Counter - c) (h : s.m_timer1Counter - c ≤ 0)
    (hf : s.m_ACR &&& VIA_ACR_T1_FREERUN ≠ 0) (hlat : s.m_timer1Latch < 65536) :
    tickTimer1 c s =
      { s with
        m_timer1Counter := s.m_timer1Counter - c + (((s.m_timer1Latch : Int) - 1) + 3)
        m_IFR := u8 (s.m_IFR ||| VIA_I_T1) } := by
  have e : wrap32 (s.m_timer1Counter - c) = s.m_timer1Counter - c :=
    wrap32_eq hlo (by omega)
  have e2 : wrap32 (s.m_timer1Counter - c + (((s.m_timer1Latch : Int) - 1) + 3)) =
      s.m_timer1Counter - c + (((s.m_timer1Latch : Int) - 1) + 3) :=
    wrap32_eq (by omega) (by omega)
  unfold tickTimer1
  dsimp only
  rw [e, if_pos h, if_pos hf, e2]

theorem tickTimer1_fire (c : Int) (s : MOS6522)
    (hlo : -2147483648 ≤ s.m_timer1Counter - c) (h : s.m_timer1Counter - c ≤ 0)
    (hf : s.m_ACR &&& VIA_ACR_T1_FREERUN = 0) (ht : s.m_timer1Triggered = false) :
    tickTimer1 c s =
      { s with
        m_timer1Counter := s.m_timer1Counter - c + 0xFFFF
        m_timer1Triggered := true
        m_IFR := u8 (s.m_IFR ||| VIA_I_T1) } := by
  have e : wrap32 (s.m_timer1Counter - c) = s.m_timer1Counter - c :=
    wrap32_eq hlo (by omega)
  have e2 : wrap32 (s.m_timer1Counter - c + 0xFFFF) = s.m_timer1Counter - c + 0xFFFF :=
    wrap32_eq (by omega) (by omega)
  have hnf : ¬ (s.m_ACR &&& VIA_ACR_T1_FREERUN ≠ 0) := fun hne => hne hf
  have hnt : ¬ (s.m_timer1Triggered = true) := by rw [ht]; exact Bool.false_ne_true
  unfold tickTimer1
  dsimp only
  rw [e, if_pos h, if_neg hnf, if_pos hnt, e2]

theorem tickTimer1_fired (c : Int) (s : MOS6522)
    (hlo : -2147483648 ≤ s.m_timer1Counter - c) (h : s.m_timer1Counter - c ≤ 0)
    (hf : s.m_ACR &&& VIA_ACR_T1_FREERUN = 0) (ht : s.m_timer1Triggered = true) :
    tickTimer1 c s = { s with m_timer1Counter := (s.m_timer1Counter - c) % 65536 } := by
  have e : wrap32 (s.m_timer1Counter - c) = s.m_timer1Counter - c :=
    wrap32_eq hlo (by omega)
  have hnf : ¬ (s.m_ACR &&& VIA_ACR_T1_FREERUN ≠ 0) := fun hne => hne hf
  have hnt : ¬ ¬ (s.m_timer1Triggered = true) := fun hn => hn ht
  unfold tickTimer1
  dsimp only
  rw [e, if_pos h, if_neg hnf, if_neg hnt]

/-- Once Timer A has fired in one-shot mode, the Timer 1 block keeps the fired
marker and the flags, whatever the counter and the cycles are. -/
theorem tickTimer1_after_fired (c : Int) (s : MOS6522)
    (hf : s.m_ACR &&& VIA_ACR_T1_FREERUN = 0) (ht : s.m_timer1Triggered = true) :
    (tickTimer1 c s).m_timer1Triggered = true ∧ (tickTimer1 c s).m_IFR = s.m_IFR ∧
    (tickTimer1 c s).m_timer1Counter < 2147483648 := by
  have hnf : ¬ (s.m_ACR &&& VIA_ACR_T1_FREERUN ≠ 0) := fun hne => hne hf
  have hnt : ¬ ¬ (s.m_timer1Triggered = true) := fun hn => hn ht
  have hr := (wrap32_range (s.m_timer1Counter - c)).2
  unfold tickTimer1
  dsimp only
  by_cases h : wrap32 (s.m_timer1Counter - c) ≤ 0
  · rw [if_pos h, if_neg hnf, if_neg hnt]
    refine ⟨ht, rfl, ?_⟩
    dsimp only
    omega
  · rw [if_neg h]
    exact ⟨ht, rfl, hr⟩

theorem tickTimer1_IFR_cases (c : Int) (s : MOS6522) :
    (tickTimer1 c s).m_IFR = s.m_IFR ∨ (tickTimer1 c s).m_IFR = u8 (s.m_IFR ||| VIA_I_T1) := by
  unfold tickTimer1
  dsimp only
  split
  · split
    · exact Or.inr rfl
    · split
      · exact Or.inr rfl
      · exact Or.inl rfl
  · exact Or.inl rfl

theorem tickTimer2_IFR_cases (c : Int) (s : MOS6522) :
    (tickTimer2 c s).m_IFR = s.m_IFR ∨ (tickTimer2 c s).m_IFR = u8 (s.m_IFR ||| VIA_I_T2) := by
  unfold tickTimer2
  dsimp only
  split
  · split
    · exact Or.inr rfl
    · exact Or.inl rfl
  · exact Or.inl rfl

/-- Fields the Timer 1 block leaves alone. -/
theorem tickTimer1_frame (c : Int) (s : MOS6522) :
    (tickTimer1 c s).m_regs = s.m_regs ∧ (tickTimer1 c s).m_CA1 = s.m_CA1 ∧
    (tickTimer1 c s).m_CA1_prev = s.m_CA1_prev ∧ (tickTimer1 c s).m_ACR = s.m_ACR ∧
    (tickTimer1 c s).m_IER = s.m_IER ∧ (tickTimer1 c s).m_timer1Latch = s.m_timer1Latch ∧
    (tickTimer1 c s).m_timer2Counter = s.m_timer2Counter ∧
    (tickTimer1 c s).m_timer2Triggered = s.m_timer2Triggered := by
  unfold tickTimer1
  dsimp only
  split
  · split
    · exact ⟨rfl, rfl, rfl, rfl, rfl, rfl, rfl, rfl⟩
    · split
      · exact ⟨rfl, rfl, rfl, rfl, rfl, rfl, rfl, rfl⟩
      · exact ⟨rfl, rfl, rfl, rfl, rfl, rfl, rfl, rfl⟩
  · exact ⟨rfl, rfl, rfl, rfl, rfl, rfl, rfl, rfl⟩

/-- Fields the Timer 2 block leaves alone. -/
theorem tickTimer2_frame (c : Int) (s : MOS6522) :
    (tickTimer2 c s).m_regs = s.m_regs ∧ (tickTimer2 c s).m_CA1 = s.m_CA1 ∧
    (tickTimer2 c s).m_CA1_prev = s.m_CA1_prev ∧ (tickTimer2 c s).m_ACR = s.m_ACR ∧
    (tickTimer2 c s).m_IER = s.m_IER ∧ (tickTimer2 c s).m_timer1Latch = s.m_timer1Latch ∧
    (tickTimer2 c s).m_timer1Counter = s.m_timer1Counter ∧
    (tickTimer2 c s).m_timer1Triggered = s.m_timer1Triggered := by
  unfold tickTimer2
  dsimp only
  split
  · split
    · exact ⟨rfl, rfl, rfl, rfl, rfl, rfl, rfl, rfl⟩
    · exact ⟨rfl, rfl, rfl, rfl, rfl, rfl, rfl, rfl⟩
  · exact ⟨rfl, rfl, rfl, rfl, rfl, rfl, rfl, rfl⟩

/-- The CA1 block, as one state update. -/
theorem tickCA1_eq (s : MOS6522) :
    tickCA1 s =
      { s with
        m_IFR :=
          if s.m_CA1 ≠ s.m_CA1_prev ∧
              ((s.m_regs VIA_REG_PCR &&& 1 ≠ 0 ∧ s.m_CA1 ≠ 0) ∨
                (s.m_regs VIA_REG_PCR &&& 1 = 0 ∧ s.m_CA1 = 0)) then
            u8 (s.m_IFR ||| VIA_I_CA1)
          else s.m_IFR
        m_CA1_prev := s.m_CA1 } := by
  unfold tickCA1
  by_cases h : s.m_CA1 = s.m_CA1_prev
  · cases s
    simp only at h
    subst h
    simp
  · by_cases h2 : (s.m_regs VIA_REG_PCR &&& 1 ≠ 0 ∧ s.m_CA1 ≠ 0) ∨
        (s.m_regs VIA_REG_PCR &&& 1 = 0 ∧ s.m_CA1 = 0)
    · have h2' : (s.m_regs VIA_REG_PCR &&& 1 ≠ 0 ∧ s.m_CA1 ≠ 0) ∨
          (¬ (s.m_regs VIA_REG_PCR &&& 1 ≠ 0) ∧ ¬ (s.m_CA1 ≠ 0)) := by
        simpa using h2
      simp only [ne_eq, h, not_false_eq_true, if_true, true_and]
      rw [if_pos h2', if_pos (by simpa using h2)]
    · have h2' : ¬ ((s.m_regs VIA_REG_PCR &&& 1 ≠ 0 ∧ s.m_CA1 ≠ 0) ∨
          (¬ (s.m_regs VIA_REG_PCR &&& 1 ≠ 0) ∧ ¬ (s.m_CA1 ≠ 0))) := by
        simpa using h2
      simp only [ne_eq, h, not_false_eq_true, if_true, true_and]
      rw [if_neg h2', if_neg (by simpa using h2)]

/-- Bits of a flag byte after OR-ing in a single-bit mask `2^k`. -/
theorem testBit_u8_or_two_pow (x k i : Nat) :
    (u8 (x ||| 2 ^ k)).testBit i = (decide (i < 8) && (x.testBit i || decide (k = i))) := by
  rw [testBit_u8, Nat.testBit_or, Nat.testBit_two_pow]

theorem testBit_set_T1 (x i : Nat) :
    (u8 (x ||| VIA_I_T1)).testBit i = (decide (i < 8) && (x.testBit i || decide (6 = i))) :=
  testBit_u8_or_two_pow x 6 i

theorem testBit_set_T2 (x i : Nat) :
    (u8 (x ||| VIA_I_T2)).testBit i = (decide (i < 8) && (x.testBit i || decide (5 = i))) :=
  testBit_u8_or_two_pow x 5 i

theorem testBit_set_CA1 (x i : Nat) :
    (u8 (x ||| VIA_I_CA1)).testBit i = (decide (i < 8) && (x.testBit i || decide (1 = i))) :=
  testBit_u8_or_two_pow x 1 i

/-- The Timer 1 block touches no flag bit other than bit 6 (below bit 8). -/
theorem tickTimer1_testBit (c : Int) (s : MOS6522) (i : Nat) (hi : i < 8) (h6 : i ≠ 6) :
    (tickTimer1 c s).m_IFR.testBit i = s.m_IFR.testBit i := by
  rcases tickTimer1_IFR_cases c s with h | h
  · rw [h]
  · rw [h, testBit_set_T1]
    have : ¬ 6 = i := fun e => h6 e.symm
    simp [hi, this]

/-- The Timer 2 block touches no flag bit other than bit 5 (below bit 8). -/
theorem tickTimer2_testBit (c : Int) (s : MOS6522) (i : Nat) (hi : i < 8) (h5 : i ≠ 5) :
    (tickTimer2 c s).m_IFR.testBit i = s.m_IFR.testBit i := by
  rcases tickTimer2_IFR_cases c s with h | h
  · rw [h]
  · rw [h, testBit_set_T2]
    have : ¬ 5 = i := fun e => h5 e.symm
    simp [hi, this]

/-- The CA1 block touches no flag bit other than bit 1 (below bit 8). -/
theorem tickCA1_testBit (s : MOS6522) (i : Nat) (hi : i < 8) (h1 : i ≠ 1) :
    (tickCA1 s).m_IFR.testBit i = s.m_IFR.testBit i := by
  rw [tickCA1_eq]
  dsimp only
  split
  · rw [testBit_set_CA1]
    have : ¬ 1 = i := fun e => h1 e.symm
    simp [hi, this]
  · rfl

/-! ## C6: edge detection on control line 1 of Port A -/

/-- C6: after a tick the CA1 flag is set exactly when it was set before or
the current CA1 level differs from the previously sampled one and the polarity
bit (bit 0 of the control register) matches the direction of the transition
(bit set and level now non-zero, or bit clear and level now zero); so from a
clear flag the tick sets it exactly on the configured transition, never on a
sustained level or the opposite transition.  After every tick the previously
sampled level equals the current level, which the tick does not change. -/
theorem CA1_edge_detection (c : Int) (s : MOS6522) :
    ((tick c s).2.m_IFR &&& VIA_I_CA1 ≠ 0 ↔
      (s.m_IFR &&& VIA_I_CA1 ≠ 0 ∨
        (s.m_CA1 ≠ s.m_CA1_prev ∧
          ((s.m_regs VIA_REG_PCR &&& 1 ≠ 0 ∧ s.m_CA1 ≠ 0) ∨
            (s.m_regs VIA_REG_PCR &&& 1 = 0 ∧ s.m_CA1 = 0))))) ∧
    (tick c s).2.m_CA1_prev = (tick c s).2.m_CA1 ∧
    (tick c s).2.m_CA1 = s.m_CA1 := by
  obtain ⟨hr1, ha1, hp1, -⟩ := tickTimer1_frame c s
  obtain ⟨hr2, ha2, hp2, -⟩ := tickTimer2_frame c (tickTimer1 c s)
  have hbit : (tickTimer2 c (tickTimer1 c s)).m_IFR.testBit 1 = s.m_IFR.testBit 1 := by
    rw [tickTimer2_testBit c _ 1 (by decide) (by decide),
      tickTimer1_testBit c _ 1 (by decide) (by decide)]
  rw [tick_eq]
  dsimp only
  rw [tickCA1_eq]
  dsimp only
  rw [hr2, ha2, hp2, hr1, ha1, hp1]
  refine ⟨?_, rfl, rfl⟩
  rw [flag_CA1_iff, flag_CA1_iff]
  split
  · rename_i hc
    constructor
    · intro _
      exact Or.inr hc
    · intro _
      rw [testBit_set_CA1]
      simp
  · rename_i hc
    rw [hbit]
    constructor
    · intro h
      exact Or.inl h
    · rintro (h | h)
      · exact h
      · exact absurd h hc

/-- C6 on a rising edge with the polarity bit set: the flag, clear before the
tick, is set by it; with the polarity bit clear the same edge leaves the flag
clear; and the sample follows the level. -/
theorem CA1_edge_detection_witness :
    ({ writeReg quietCallbacks VIA_REG_PCR 0x01 powerOn with m_CA1 := 1 } : MOS6522).m_IFR
        &&& VIA_I_CA1 = 0 ∧
    (tick 1 { writeReg quietCallbacks VIA_REG_PCR 0x01 powerOn with m_CA1 := 1 }).2.m_IFR
        &&& VIA_I_CA1 ≠ 0 ∧
    (tick 1 { writeReg quietCallbacks VIA_REG_PCR 0x00 powerOn with m_CA1 := 1 }).2.m_IFR
        &&& VIA_I_CA1 = 0 ∧
    (tick 1 { writeReg quietCallbacks VIA_REG_PCR 0x01 powerOn with m_CA1 := 1 }).2.m_CA1_prev
        = 1 :=
  have h := CA1_edge_detection 1
    { writeReg quietCallbacks VIA_REG_PCR 0x01 powerOn with m_CA1 := 1 }
  have h0 := CA1_edge_detection 1
    { writeReg quietCallbacks VIA_REG_PCR 0x00 powerOn with m_CA1 := 1 }
  ⟨by decide,
    h.1.2 (Or.inr ⟨by decide, Or.inl ⟨by decide, by decide⟩⟩),
    by_contra (fun hne => by
      rcases h0.1.1 hne with h1 | ⟨-, h1 | h1⟩
      · exact h1 (by decide)
      · exact h1.1 (by decide)
      · exact absurd h1.2 (by decide)),
    h.2.1.trans (h.2.2.trans (by decide))⟩

/-! ## C10: latch writes and the trigger access of Timer A -/

theorem testBit_0xff00 (i : Nat) : Nat.testBit 0xff00 i = (decide (8 ≤ i) && decide (i < 16)) := by
  have e : (0xff00 : Nat) = (2 ^ 8 - 1) <<< 8 := rfl
  rw [e, Nat.testBit_shiftLeft, Nat.testBit_two_pow_sub_one]
  by_cases h : 8 ≤ i
  · have h' : i ≥ 8 := h
    by_cases h2 : i < 16
    · have : i - 8 < 8 := by omega
      simp [h, h', h2, this]
    · have : ¬ i - 8 < 8 := by omega
      simp [h, h', h2, this]
  · have h' : ¬ i ≥ 8 := h
    simp [h, h']

/-- Replacing the low byte of a 16-bit latch by the byte `v`. -/
theorem latch_low_store (l v : Nat) (hv : v < 256) :
    u16 ((l &&& 0xff00) ||| v) = (l &&& 0xff00) ||| v ∧
    ((l &&& 0xff00) ||| v) &&& 0xff = v ∧
    (l < 65536 → ((l &&& 0xff00) ||| v) >>> 8 = l >>> 8) := by
  refine ⟨?_, ?_, ?_⟩
  · apply u16_of_lt
    have h1 : l &&& 0xff00 < 2 ^ 16 := lt_of_le_of_lt Nat.and_le_right (by decide)
    have h2 : v < 2 ^ 16 := by omega
    exact Nat.or_lt_two_pow h1 h2
  · apply Nat.eq_of_testBit_eq
    intro i
    simp only [Nat.testBit_and, Nat.testBit_or, testBit_0xff00, testBit_0xff]
    by_cases h8 : i < 8
    · have : ¬ 8 ≤ i := by omega
      simp [h8, this]
    · have hvi : v.testBit i = false :=
        testBit_eq_false_of_lt (n := 8) (by simpa using hv) (by omega)
      simp [h8, hvi]
  · intro hl
    apply Nat.eq_of_testBit_eq
    intro i
    simp only [Nat.testBit_shiftRight, Nat.testBit_and, Nat.testBit_or, testBit_0xff00]
    have hvi : v.testBit (8 + i) = false :=
      testBit_eq_false_of_lt (n := 8) (by simpa using hv) (by omega)
    by_cases h16 : 8 + i < 16
    · simp [h16, hvi]
    · have hli : l.testBit (8 + i) = false :=
        testBit_eq_false_of_lt (n := 16) (by simpa using hl) (by omega)
      simp [hvi, hli]

/-- Replacing the high byte of a 16-bit latch by the byte `v`. -/
theorem latch_high_store (l v : Nat) (hv : v < 256) :
    u16 ((l &&& 0x00ff) ||| (v <<< 8)) = (l &&& 0x00ff) ||| (v <<< 8) ∧
    ((l &&& 0x00ff) ||| (v <<< 8)) >>> 8 = v ∧
    ((l &&& 0x00ff) ||| (v <<< 8)) &&& 0x00ff = l &&& 0x00ff ∧
    (l &&& 0x00ff) ||| (v <<< 8) = 256 * v + l % 256 := by
  have harith : (l &&& 0x00ff) ||| (v <<< 8) = 256 * v + l % 256 := by
    have e1 : l &&& 0x00ff = l % 2 ^ 8 := Nat.and_pow_two_sub_one_eq_mod l 8
    have e2 : v <<< 8 = 2 ^ 8 * v := by rw [Nat.shiftLeft_eq, Nat.mul_comm]
    rw [e1, e2, Nat.or_comm, ← Nat.mul_add_lt_is_or (Nat.mod_lt _ (by decide)) v]
  refine ⟨?_, ?_, ?_, harith⟩
  · apply u16_of_lt
    rw [harith]
    have : l % 256 < 256 := Nat.mod_lt _ (by decide)
    omega
  · rw [harith, Nat.shiftRight_eq_div_pow]
    have : l % 256 < 256 := Nat.mod_lt _ (by decide)
    omega
  · have e1 : ∀ x, x &&& 0x00ff = x % 2 ^ 8 := fun x => Nat.and_pow_two_sub_one_eq_mod x 8
    rw [harith, e1, e1]
    omega

theorem writeReg_T1_C_LO_eq (cb : Callbacks) (v : Nat) (s : MOS6522) :
    writeReg cb VIA_REG_T1_C_LO v s =
      { s with
        m_regs := Function.update s.m_regs VIA_REG_T1_C_LO (u8 v)
        m_timer1Latch := u16 ((s.m_timer1Latch &&& 0xff00) ||| v) } := rfl

theorem writeReg_T1_L_LO_eq (cb : Callbacks) (v : Nat) (s : MOS6522) :
    writeReg cb VIA_REG_T1_L_LO v s =
      { s with
        m_regs := Function.update s.m_regs VIA_REG_T1_L_LO (u8 v)
        m_timer1Latch := u16 ((s.m_timer1Latch &&& 0xff00) ||| v) } := rfl

theorem writeReg_T1_L_HI_eq (cb : Callbacks) (v : Nat) (s : MOS6522) :
    writeReg cb VIA_REG_T1_L_HI v s =
      { s with
        m_regs := Function.update s.m_regs VIA_REG_T1_L_HI (u8 v)
        m_timer1Latch := u16 ((s.m_timer1Latch &&& 0x00ff) ||| (v <<< 8))
        m_IFR := u8 (s.m_IFR &&& cnot VIA_I_T1) } := rfl

theorem writeReg_T2_C_LO_eq (cb : Callbacks) (v : Nat) (s : MOS6522) :
    writeReg cb VIA_REG_T2_C_LO v s =
      { s with
        m_regs := Function.update s.m_regs VIA_REG_T2_C_LO (u8 v)
        m_timer2Latch := u8 v } := rfl

theorem writeReg_T1_C_HI_eq (cb : Callbacks) (v : Nat) (s : MOS6522) :
    writeReg cb VIA_REG_T1_C_HI v s =
      { s with
        m_regs := Function.update s.m_regs VIA_REG_T1_C_HI (u8 v)
        m_timer1Latch := u16 ((s.m_timer1Latch &&& 0x00ff) ||| (v <<< 8))
        m_timer1Counter :=
          (((u16 ((s.m_timer1Latch &&& 0x00ff) ||| (v <<< 8)) &&& 0x00ff) ||| (v <<< 8) : Nat) : Int)
        m_IFR := u8 (s.m_IFR &&& cnot VIA_I_T1)
        m_timer1Triggered := false } := rfl

theorem readReg_T1_L_LO (cb : Callbacks) (s : MOS6522) :
    readReg cb VIA_REG_T1_L_LO s = (((s.m_timer1Latch &&& 0xff : Nat) : Int), s) := rfl

theorem readReg_T1_L_HI (cb : Callbacks) (s : MOS6522) :
    readReg cb VIA_REG_T1_L_HI s = (((s.m_timer1Latch >>> 8 : Nat) : Int), s) := rfl

/-- Clearing the Timer A flag leaves bit 6 clear. -/
theorem clear_T1_flag (x : Nat) : u8 (x &&& cnot VIA_I_T1) &&& VIA_I_T1 = 0 := by
  by_contra h
  have := (flag_T1_iff _).1 h
  simp [testBit_u8, testBit_cnot, testBit_I_T1] at this

/-- The arming write of Timer A, on a state with a 16-bit latch. -/
theorem writeReg_T1_C_HI_arms (cb : Callbacks) (h : Nat) (s : MOS6522) (hh : h < 256) :
    (writeReg cb VIA_REG_T1_C_HI h s).m_timer1Counter =
      ((256 * h + s.m_timer1Latch % 256 : Nat) : Int) ∧
    (writeReg cb VIA_REG_T1_C_HI h s).m_timer1Latch = 256 * h + s.m_timer1Latch % 256 ∧
    (writeReg cb VIA_REG_T1_C_HI h s).m_IFR &&& VIA_I_T1 = 0 ∧
    (writeReg cb VIA_REG_T1_C_HI h s).m_timer1Triggered = false ∧
    (writeReg cb VIA_REG_T1_C_HI h s).m_ACR = s.m_ACR := by
  obtain ⟨h1, -, h3, h4⟩ := latch_high_store s.m_timer1Latch h hh
  rw [writeReg_T1_C_HI_eq]
  dsimp only
  refine ⟨?_, ?_, clear_T1_flag _, rfl, rfl⟩
  · rw [h1, h3, h4]
  · rw [h1, h4]

/-- C10 (counterexample): the write to Timer A latch-high changes more than
the latch byte.  After `tick(1)` from power-on both timer flags are set (the
flag register reads 0x60); writing 0x12 to Timer A latch-high leaves the flag
register reading 0x20: the stored flags have changed. -/
theorem latch_high_write_changes_flags :
    (readReg quietCallbacks VIA_REG_IFR (tick 1 powerOn).2).1 = 0x60 ∧
    (readReg quietCallbacks VIA_REG_IFR
      (writeReg quietCallbacks VIA_REG_T1_L_HI 0x12 (tick 1 powerOn).2)).1 = 0x20 ∧
    (writeReg quietCallbacks VIA_REG_T1_L_HI 0x12 (tick 1 powerOn).2).m_IFR ≠
      (tick 1 powerOn).2.m_IFR := by
  refine ⟨by decide, by decide, by decide⟩

/-- C10 (amended): for bytes `v`, `h` and a 16-bit Timer A latch, each of the
writes to Timer A counter-low, Timer A latch-low, Timer A latch-high and
Timer B counter-low records `v` in the raw cell of the written index and
otherwise changes only the corresponding latch byte, except that the latch-high
write also clears the Timer A flag; both counters are untouched; reading back
the written Timer A latch byte returns `v` and the other latch byte is as
before.  `writeReg(VIA_REG_T1_C_HI, h)` sets the Timer A counter to
`256*h + (latch low byte)`, the latch high byte to `h`, and clears the Timer A
flag and the fired marker. -/
theorem latch_writes_frame (cb : Callbacks) (s : MOS6522) (v h : Nat)
    (hv : v < 256) (hh : h < 256) (hl : s.m_timer1Latch < 65536) :
    writeReg cb VIA_REG_T1_C_LO v s =
      { s with
        m_regs := Function.update s.m_regs VIA_REG_T1_C_LO v
        m_timer1Latch := (s.m_timer1Latch &&& 0xff00) ||| v } ∧
    writeReg cb VIA_REG_T1_L_LO v s =
      { s with
        m_regs := Function.update s.m_regs VIA_REG_T1_L_LO v
        m_timer1Latch := (s.m_timer1Latch &&& 0xff00) ||| v } ∧
    writeReg cb VIA_REG_T1_L_HI v s =
      { s with
        m_regs := Function.update s.m_regs VIA_REG_T1_L_HI v
        m_timer1Latch := (s.m_timer1Latch &&& 0x00ff) ||| (v <<< 8)
        m_IFR := u8 (s.m_IFR &&& cnot VIA_I_T1) } ∧
    writeReg cb VIA_REG_T2_C_LO v s =
      { s with
        m_regs := Function.update s.m_regs VIA_REG_T2_C_LO v
        m_timer2Latch := v } ∧
    (readReg cb VIA_REG_T1_L_LO (writeReg cb VIA_REG_T1_C_LO v s)).1 = (v : Int) ∧
    (readReg cb VIA_REG_T1_L_HI (writeReg cb VIA_REG_T1_C_LO v s)).1 =
      (readReg cb VIA_REG_T1_L_HI s).1 ∧
    (readReg cb VIA_REG_T1_L_LO (writeReg cb VIA_REG_T1_L_LO v s)).1 = (v : Int) ∧
    (readReg cb VIA_REG_T1_L_HI (writeReg cb VIA_REG_T1_L_LO v s)).1 =
      (readReg cb VIA_REG_T1_L_HI s).1 ∧
    (readReg cb VIA_REG_T1_L_HI (writeReg cb VIA_REG_T1_L_HI v s)).1 = (v : Int) ∧
    (readReg cb VIA_REG_T1_L_LO (writeReg cb VIA_REG_T1_L_HI v s)).1 =
      (readReg cb VIA_REG_T1_L_LO s).1 ∧
    (writeReg cb VIA_REG_T1_C_HI h s).m_timer1Counter =
      ((256 * h + s.m_timer1Latch % 256 : Nat) : Int) ∧
    (writeReg cb VIA_REG_T1_C_HI h (writeReg cb VIA_REG_T1_C_LO v s)).m_timer1Counter =
      ((256 * h + v : Nat) : Int) ∧
    (readReg cb VIA_REG_T1_L_HI (writeReg cb VIA_REG_T1_C_HI h s)).1 = (h : Int) ∧
    (writeReg cb VIA_REG_T1_C_HI h s).m_IFR &&& VIA_I_T1 = 0 ∧
    (writeReg cb VIA_REG_T1_C_HI h s).m_timer1Triggered = false := by
  obtain ⟨a1, a2, a3⟩ := latch_low_store s.m_timer1Latch v hv
  obtain ⟨b1, b2, b3, b4⟩ := latch_high_store s.m_timer1Latch v hv
  obtain ⟨c1, c2, c3, c4, -⟩ := writeReg_T1_C_HI_arms cb h s hh
  have hmod : ∀ x, x &&& 0xff = x % 2 ^ 8 := fun x => Nat.and_pow_two_sub_one_eq_mod x 8
  refine ⟨?_, ?_, ?_, ?_, ?_, ?_, ?_, ?_, ?_, ?_, c1, ?_, ?_, c3, c4⟩
  · rw [writeReg_T1_C_LO_eq, a1, u8_of_lt hv]
  · rw [writeReg_T1_L_LO_eq, a1, u8_of_lt hv]
  · rw [writeReg_T1_L_HI_eq, b1, u8_of_lt hv]
  · rw [writeReg_T2_C_LO_eq, u8_of_lt hv]
  · rw [readReg_T1_L_LO, writeReg_T1_C_LO_eq]
    dsimp only
    rw [a1, a2]
  · rw [readReg_T1_L_HI, readReg_T1_L_HI, writeReg_T1_C_LO_eq]
    dsimp only
    rw [a1, a3 hl]
  · rw [readReg_T1_L_LO, writeReg_T1_L_LO_eq]
    dsimp only
    rw [a1, a2]
  · rw [readReg_T1_L_HI, readReg_T1_L_HI, writeReg_T1_L_LO_eq]
    dsimp only
    rw [a1, a3 hl]
  · rw [readReg_T1_L_HI, writeReg_T1_L_HI_eq]
    dsimp only
    rw [b1, b2]
  · rw [readReg_T1_L_LO, readReg_T1_L_LO, writeReg_T1_L_HI_eq]
    dsimp only
    rw [b1, b3]
  · rw [(writeReg_T1_C_HI_arms cb h (writeReg cb VIA_REG_T1_C_LO v s) hh).1,
      writeReg_T1_C_LO_eq]
    dsimp only
    have a2' : (s.m_timer1Latch &&& 0xff00 ||| v) % 256 = v := by
      have e := a2
      rw [hmod] at e
      exact e
    rw [a1, a2']
  · rw [readReg_T1_L_HI]
    dsimp only
    rw [c2, Nat.shiftRight_eq_div_pow]
    have : s.m_timer1Latch % 256 < 256 := Nat.mod_lt _ (by decide)
    congr 1
    omega

/-- C10 (amended) at a concrete input: latch 0x1234 with the Timer A flag
set, `v = 0xAB`, `h = 0x02`. -/
theorem latch_writes_frame_witness :
    (0xAB < 256) ∧ (0x02 < 256) ∧
    (({ powerOn with m_timer1Latch := 0x1234, m_IFR := 0x40 } : MOS6522).m_timer1Latch
      < 65536) ∧
    (readReg quietCallbacks VIA_REG_T1_L_LO (writeReg quietCallbacks VIA_REG_T1_C_LO 0xAB
      { powerOn with m_timer1Latch := 0x1234, m_IFR := 0x40 })).1 = 0xAB ∧
    (writeReg quietCallbacks VIA_REG_T1_C_HI 0x02 (writeReg quietCallbacks VIA_REG_T1_C_LO 0xAB
      { powerOn with m_timer1Latch := 0x1234, m_IFR := 0x40 })).m_timer1Counter = 0x02AB :=
  have h := latch_writes_frame quietCallbacks
    { powerOn with m_timer1Latch := 0x1234, m_IFR := 0x40 } 0xAB 0x02
    (by decide) (by decide) (by decide)
  ⟨by decide, by decide, by decide, h.2.2.2.2.1, h.2.2.2.2.2.2.2.2.2.2.2.1⟩

/-! ## What a whole `tick` does to Timer A -/

/-- The Timer 2 and CA1 blocks leave the Timer A members and flag bit 6 as the
Timer 1 block produced them. -/
theorem tick_timer1 (c : Int) (s : MOS6522) :
    (tick c s).2.m_timer1Counter = (tickTimer1 c s).m_timer1Counter ∧
    (tick c s).2.m_timer1Latch = s.m_timer1Latch ∧
    (tick c s).2.m_ACR = s.m_ACR ∧
    (tick c s).2.m_timer1Triggered = (tickTimer1 c s).m_timer1Triggered ∧
    (tick c s).2.m_IFR.testBit 6 = (tickTimer1 c s).m_IFR.testBit 6 := by
  obtain ⟨-, -, -, hA1, -, hL1, -, -⟩ := tickTimer1_frame c s
  obtain ⟨-, -, -, hA2, -, hL2, hC2, hT2⟩ := tickTimer2_frame c (tickTimer1 c s)
  have hbit : (tickCA1 (tickTimer2 c (tickTimer1 c s))).m_IFR.testBit 6 =
      (tickTimer1 c s).m_IFR.testBit 6 := by
    rw [tickCA1_testBit _ 6 (by decide) (by decide),
      tickTimer2_testBit c _ 6 (by decide) (by decide)]
  rw [tick_eq]
  dsimp only
  rw [tickCA1_eq] at hbit ⊢
  dsimp only at hbit ⊢
  exact ⟨hC2, hL2.trans hL1, hA2.trans hA1, hT2, hbit⟩

theorem tick_T1_pos (c : Int) (s : MOS6522) (hhi : s.m_timer1Counter - c < 2147483648)
    (h : 0 < s.m_timer1Counter - c) :
    (tick c s).2.m_timer1Counter = s.m_timer1Counter - c ∧
    (tick c s).2.m_timer1Latch = s.m_timer1Latch ∧
    (tick c s).2.m_ACR = s.m_ACR ∧
    (tick c s).2.m_timer1Triggered = s.m_timer1Triggered ∧
    (tick c s).2.m_IFR.testBit 6 = s.m_IFR.testBit 6 := by
  obtain ⟨h1, h2, h3, h4, h5⟩ := tick_timer1 c s
  rw [tickTimer1_pos c s hhi h] at h1 h4 h5
  exact ⟨h1, h2, h3, h4, h5⟩

theorem tick_T1_freerun (c : Int) (s : MOS6522)
    (hlo : -2147483648 ≤ s.m_timer1Counter - c) (h : s.m_timer1Counter - c ≤ 0)
    (hf : s.m_ACR &&& VIA_ACR_T1_FREERUN ≠ 0) (hlat : s.m_timer1Latch < 65536) :
    (tick c s).2.m_timer1Counter =
      s.m_timer1Counter - c + (((s.m_timer1Latch : Int) - 1) + 3) ∧
    (tick c s).2.m_timer1Latch = s.m_timer1Latch ∧
    (tick c s).2.m_ACR = s.m_ACR ∧
    (tick c s).2.m_timer1Triggered = s.m_timer1Triggered ∧
    (tick c s).2.m_IFR.testBit 6 = true := by
  obtain ⟨h1, h2, h3, h4, h5⟩ := tick_timer1 c s
  rw [tickTimer1_freerun c s hlo h hf hlat] at h1 h4 h5
  refine ⟨h1, h2, h3, h4, ?_⟩
  rw [h5]
  dsimp only
  rw [testBit_set_T1]
  simp

theorem tick_T1_fire (c : Int) (s : MOS6522)
    (hlo : -2147483648 ≤ s.m_timer1Counter - c) (h : s.m_timer1Counter - c ≤ 0)
    (hf : s.m_ACR &&& VIA_ACR_T1_FREERUN = 0) (ht : s.m_timer1Triggered = false) :
    (tick c s).2.m_timer1Counter = s.m_timer1Counter - c + 0xFFFF ∧
    (tick c s).2.m_timer1Latch = s.m_timer1Latch ∧
    (tick c s).2.m_ACR = s.m_ACR ∧
    (tick c s).2.m_timer1Triggered = true ∧
    (tick c s).2.m_IFR.testBit 6 = true := by
  obtain ⟨h1, h2, h3, h4, h5⟩ := tick_timer1 c s
  rw [tickTimer1_fire c s hlo h hf ht] at h1 h4 h5
  refine ⟨h1, h2, h3, h4, ?_⟩
  rw [h5]
  dsimp only
  rw [testBit_set_T1]
  simp

theorem tick_T1_fired (c : Int) (s : MOS6522)
    (hlo : -2147483648 ≤ s.m_timer1Counter - c) (h : s.m_timer1Counter - c ≤ 0)
    (hf : s.m_ACR &&& VIA_ACR_T1_FREERUN = 0) (ht : s.m_timer1Triggered = true) :
    (tick c s).2.m_timer1Counter = (s.m_timer1Counter - c) % 65536 ∧
    (tick c s).2.m_timer1Latch = s.m_timer1Latch ∧
    (tick c s).2.m_ACR = s.m_ACR ∧
    (tick c s).2.m_timer1Triggered = true ∧
    (tick c s).2.m_IFR.testBit 6 = s.m_IFR.testBit 6 := by
  obtain ⟨h1, h2, h3, h4, h5⟩ := tick_timer1 c s
  rw [tickTimer1_fired c s hlo h hf ht] at h1 h4 h5
  exact ⟨h1, h2, h3, h4.trans ht, h5⟩

/-- Once Timer A has fired in one-shot mode, a tick keeps the fired marker and
the mode register and leaves the Timer A flag as it found it. -/
theorem tick_T1_after_fired (c : Int) (s : MOS6522)
    (hf : s.m_ACR &&& VIA_ACR_T1_FREERUN = 0) (ht : s.m_timer1Triggered = true) :
    (tick c s).2.m_ACR = s.m_ACR ∧
    (tick c s).2.m_timer1Triggered = true ∧
    (tick c s).2.m_IFR.testBit 6 = s.m_IFR.testBit 6 := by
  obtain ⟨-, -, h3, h4, h5⟩ := tick_timer1 c s
  obtain ⟨k1, k2, -⟩ := tickTimer1_after_fired c s hf ht
  rw [k1] at h4
  rw [k2] at h5
  exact ⟨h3, h4, h5⟩

/-! ## C5: one-shot Timer A, end to end from reset -/

/-- The state armed from reset: latch-low `l` (through either latch-low
register), then counter-high `h`. -/
theorem armed_from_reset (cb : Callbacks) (s0 : MOS6522) (r : Fin 16) (l h : Nat)
    (hr : r = VIA_REG_T1_L_LO ∨ r = VIA_REG_T1_C_LO) (hl : l < 256) (hh : h < 256) :
    (writeReg cb VIA_REG_T1_C_HI h (writeReg cb r l (reset s0))).m_timer1Counter =
      ((256 * h + l : Nat) : Int) ∧
    (writeReg cb VIA_REG_T1_C_HI h (writeReg cb r l (reset s0))).m_ACR = 0 ∧
    (writeReg cb VIA_REG_T1_C_HI h (writeReg cb r l (reset s0))).m_timer1Triggered = false ∧
    (writeReg cb VIA_REG_T1_C_HI h (writeReg cb r l (reset s0))).m_IFR.testBit 6 = false := by
  obtain ⟨c1, -, c3, c4, c5⟩ := writeReg_T1_C_HI_arms cb h (writeReg cb r l (reset s0)) hh
  obtain ⟨a1, -, -⟩ := latch_low_store 0 l hl
  have hlatch : (writeReg cb r l (reset s0)).m_timer1Latch = l := by
    rcases hr with e | e
    · rw [e, writeReg_T1_L_LO_eq]
      show u16 ((0 &&& 0xff00) ||| l) = l
      rw [a1]
      simp
    · rw [e, writeReg_T1_C_LO_eq]
      show u16 ((0 &&& 0xff00) ||| l) = l
      rw [a1]
      simp
  have hacr : (writeReg cb r l (reset s0)).m_ACR = 0 := by
    rcases hr with e | e
    · rw [e, writeReg_T1_L_LO_eq]; rfl
    · rw [e, writeReg_T1_C_LO_eq]; rfl
  refine ⟨?_, c5.trans hacr, c4, ?_⟩
  · rw [c1, hlatch, Nat.mod_eq_of_lt hl]
  · by_contra hb
    exact (flag_T1_iff _).2 (by simpa using hb) c3

/-- C5 (counterexample): from reset, Timer A armed to `L = 5` (latch-low 5,
counter-high 0); `tick(3)` leaves the counter at 2; `tick(2147483647)` fires the
timer; a further `tick(2147483647)` takes the 32-bit counter below `-2^31`, so
it wraps and is left at 65539, outside `0..0xFFFF`.  All of `0 ≤ a < L`,
`a + b ≥ L` and `c ≥ 0` hold for `a = 3`, `b = c = 2147483647`. -/
theorem oneshot_counter_leaves_range :
    ((0 : Int) ≤ 3 ∧ (3 : Int) < 5 ∧ (5 : Int) ≤ 3 + 2147483647 ∧ (0 : Int) ≤ 2147483647) ∧
    (tick 3 (writeReg quietCallbacks VIA_REG_T1_C_HI 0
      (writeReg quietCallbacks VIA_REG_T1_L_LO 5 (reset powerOn)))).2.m_timer1Counter = 2 ∧
    (tick 2147483647 (tick 3 (writeReg quietCallbacks VIA_REG_T1_C_HI 0
      (writeReg quietCallbacks VIA_REG_T1_L_LO 5 (reset powerOn)))).2).2.m_IFR
        &&& VIA_I_T1 ≠ 0 ∧
    (tick 2147483647 (tick 2147483647 (tick 3 (writeReg quietCallbacks VIA_REG_T1_C_HI 0
      (writeReg quietCallbacks VIA_REG_T1_L_LO 5 (reset powerOn)))).2).2).2.m_timer1Counter
        = 65539 ∧
    ¬ ((tick 2147483647 (tick 2147483647 (tick 3 (writeReg quietCallbacks VIA_REG_T1_C_HI 0
      (writeReg quietCallbacks VIA_REG_T1_L_LO 5 (reset powerOn)))).2).2).2.m_timer1Counter
        ≤ 0xFFFF) := by
  refine ⟨by decide, by decide, by decide, by decide, by decide⟩

/-- C5 (amended): from reset (one-shot mode), arm Timer A to `L = 256*h + l`
by writing latch-low `l` then counter-high `h`.  For `0 ≤ a < L`, `a + b ≥ L`
with `b` an `int` and `c ≥ 0` such that the 32-bit counter does not pass
`-2^31` (`b + c ≤ (L - a) + 0xFFFF + 2^31`): after `tick(a)` the counter is
`L - a` and the Timer A flag is clear; after the following `tick(b)` the flag is
set and the fired marker is true; after the following `tick(c)` the flag is
still set, the fired marker still true, and the counter lies in `0..0xFFFF`. -/
theorem oneshot_end_to_end (cb : Callbacks) (s0 : MOS6522) (r : Fin 16) (l h : Nat)
    (a b c : Int) (hr : r = VIA_REG_T1_L_LO ∨ r = VIA_REG_T1_C_LO)
    (hl : l < 256) (hh : h < 256) (ha0 : 0 ≤ a) (haL : a < ((256 * h + l : Nat) : Int))
    (hb : ((256 * h + l : Nat) : Int) ≤ a + b) (hb32 : b ≤ 2147483647) (hc : 0 ≤ c)
    (hbc : b + c ≤ (((256 * h + l : Nat) : Int) - a) + 0xFFFF + 2147483648) :
    (tick a (writeReg cb VIA_REG_T1_C_HI h (writeReg cb r l (reset s0)))).2.m_timer1Counter =
      ((256 * h + l : Nat) : Int) - a ∧
    (tick a (writeReg cb VIA_REG_T1_C_HI h (writeReg cb r l (reset s0)))).2.m_IFR
      &&& VIA_I_T1 = 0 ∧
    (tick b (tick a (writeReg cb VIA_REG_T1_C_HI h (writeReg cb r l (reset s0)))).2).2.m_IFR
      &&& VIA_I_T1 ≠ 0 ∧
    (tick b (tick a
      (writeReg cb VIA_REG_T1_C_HI h (writeReg cb r l (reset s0)))).2).2.m_timer1Triggered
      = true ∧
    (tick c (tick b (tick a
      (writeReg cb VIA_REG_T1_C_HI h (writeReg cb r l (reset s0)))).2).2).2.m_IFR
      &&& VIA_I_T1 ≠ 0 ∧
    (tick c (tick b (tick a
      (writeReg cb VIA_REG_T1_C_HI h (writeReg cb r l (reset s0)))).2).2).2.m_timer1Triggered
      = true ∧
    0 ≤ (tick c (tick b (tick a
      (writeReg cb VIA_REG_T1_C_HI h (writeReg cb r l (reset s0)))).2).2).2.m_timer1Counter ∧
    (tick c (tick b (tick a
      (writeReg cb VIA_REG_T1_C_HI h (writeReg cb r l (reset s0)))).2).2).2.m_timer1Counter
      ≤ 0xFFFF := by
  obtain ⟨k1, k2, k3, k4⟩ := armed_from_reset cb s0 r l h hr hl hh
  generalize writeReg cb VIA_REG_T1_C_HI h (writeReg cb r l (reset s0)) = s1 at k1 k2 k3 k4 ⊢
  have hfr1 : s1.m_ACR &&& VIA_ACR_T1_FREERUN = 0 := by rw [k2]; rfl
  -- first tick: the counter stays positive
  obtain ⟨p1, -, p3, p4, p5⟩ := tick_T1_pos a s1 (by rw [k1]; omega) (by rw [k1]; omega)
  rw [k1] at p1
  rw [k2] at p3
  rw [k3] at p4
  rw [k4] at p5
  generalize (tick a s1).2 = s2 at p1 p3 p4 p5 ⊢
  have hfr2 : s2.m_ACR &&& VIA_ACR_T1_FREERUN = 0 := by rw [p3]; rfl
  -- second tick: the counter reaches zero or below, the timer fires
  obtain ⟨q1, -, q3, q4, q5⟩ :=
    tick_T1_fire b s2 (by rw [p1]; omega) (by rw [p1]; omega) hfr2 p4
  rw [p1] at q1
  rw [p3] at q3
  generalize (tick b s2).2 = s3 at q1 q3 q4 q5 ⊢
  have hfr3 : s3.m_ACR &&& VIA_ACR_T1_FREERUN = 0 := by rw [q3]; rfl
  -- third tick: already fired
  obtain ⟨-, r4, r5⟩ := tick_T1_after_fired c s3 hfr3 q4
  rw [q5] at r5
  have hcnt : 0 ≤ (tick c s3).2.m_timer1Counter ∧ (tick c s3).2.m_timer1Counter ≤ 0xFFFF := by
    by_cases hz : s3.m_timer1Counter - c ≤ 0
    · obtain ⟨t1, -⟩ := tick_T1_fired c s3 (by rw [q1]; omega) hz hfr3 q4
      rw [t1]
      omega
    · obtain ⟨t1, -⟩ := tick_T1_pos c s3 (by rw [q1]; omega) (not_le.1 hz)
      rw [t1]
      rw [q1] at hz ⊢
      omega
  refine ⟨p1, ?_, (flag_T1_iff _).2 q5, q4, (flag_T1_iff _).2 r5, r4, hcnt.1, hcnt.2⟩
  by_contra hne
  have := (flag_T1_iff _).1 hne
  rw [p5] at this
  exact Bool.false_ne_true this

/-- C5 (amended) at the spec's example: `L = 5`, `a = 3` (counter 2, no flag),
`b = 3`, `c = 100`. -/
theorem oneshot_end_to_end_witness :
    (VIA_REG_T1_L_LO = VIA_REG_T1_L_LO ∨ VIA_REG_T1_L_LO = VIA_REG_T1_C_LO) ∧
    (5 < 256) ∧ (0 < 256) ∧ ((0 : Int) ≤ 3) ∧
    ((3 : Int) < ((256 * 0 + 5 : Nat) : Int)) ∧ (((256 * 0 + 5 : Nat) : Int) ≤ 3 + 3) ∧
    ((3 : Int) ≤ 2147483647) ∧ ((0 : Int) ≤ 100) ∧
    ((3 : Int) + 100 ≤ (((256 * 0 + 5 : Nat) : Int) - 3) + 0xFFFF + 2147483648) ∧
    (tick 3 (writeReg quietCallbacks VIA_REG_T1_C_HI 0
      (writeReg quietCallbacks VIA_REG_T1_L_LO 5 (reset powerOn)))).2.m_timer1Counter = 2 ∧
    (tick 100 (tick 3 (tick 3 (writeReg quietCallbacks VIA_REG_T1_C_HI 0
      (writeReg quietCallbacks VIA_REG_T1_L_LO 5 (reset powerOn)))).2).2).2.m_timer1Counter
      ≤ 0xFFFF :=
  have h := oneshot_end_to_end quietCallbacks powerOn VIA_REG_T1_L_LO 5 0 3 3 100
    (Or.inl rfl) (by decide) (by decide) (by decide) (by decide) (by decide) (by decide)
    (by decide) (by decide)
  ⟨Or.inl rfl, by decide, by decide, by decide, by decide, by decide, by decide, by decide,
    by decide, h.1.trans (by decide), h.2.2.2.2.2.2.2⟩

/-! ## C3: the free-run period of Timer A -/

theorem readReg_T1_C_LO_eq (cb : Callbacks) (s : MOS6522) :
    readReg cb VIA_REG_T1_C_LO s =
      (s.m_timer1Counter % 256, { s with m_IFR := u8 (s.m_IFR &&& cnot VIA_I_T1) }) := rfl

theorem freerunPeriod_eq (cb : Callbacks) (s : MOS6522) :
    freerunPeriod cb s = ticks1 (s.m_timer1Latch + 2) (readReg cb VIA_REG_T1_C_LO s).2 := rfl

theorem ticks1_succ (n : Nat) (s : MOS6522) :
    ticks1 (n + 1) s = (tick 1 (ticks1 n s)).2 :=
  Function.iterate_succ_apply' _ n s

/-- Single-cycle ticks while the free-running counter is still positive: the
counter counts down and the Timer A flag stays clear. -/
theorem ticks1_countdown (s : MOS6522) (n : Nat) (hn : s.m_timer1Counter = (n : Int))
    (hn32 : n < 2147483648) (hflag : s.m_IFR.testBit 6 = false) (j : Nat) (hj : j < n) :
    (ticks1 j s).m_timer1Counter = (n : Int) - (j : Int) ∧
    (ticks1 j s).m_timer1Latch = s.m_timer1Latch ∧
    (ticks1 j s).m_ACR = s.m_ACR ∧
    (ticks1 j s).m_IFR.testBit 6 = false := by
  induction j with
  | zero => exact ⟨by simpa [ticks1] using hn, rfl, rfl, hflag⟩
  | succ j ih =>
    obtain ⟨i1, i2, i3, i4⟩ := ih (by omega)
    obtain ⟨p1, p2, p3, -, p5⟩ :=
      tick_T1_pos 1 (ticks1 j s) (by rw [i1]; omega) (by rw [i1]; omega)
    rw [ticks1_succ]
    refine ⟨?_, p2.trans i2, p3.trans i3, p5.trans i4⟩
    rw [p1, i1]
    push_cast
    omega

/-- One free-run period from a freshly reloaded counter `latch + 2`. -/
theorem freerunPeriod_spec (cb : Callbacks) (s : MOS6522)
    (hf : s.m_ACR &&& VIA_ACR_T1_FREERUN ≠ 0) (hlat : s.m_timer1Latch < 65536)
    (hc : s.m_timer1Counter = (s.m_timer1Latch : Int) + 2) :
    (∀ j, j < s.m_timer1Latch + 2 →
      (ticks1 j (readReg cb VIA_REG_T1_C_LO s).2).m_IFR &&& VIA_I_T1 = 0 ∧
      (ticks1 j (readReg cb VIA_REG_T1_C_LO s).2).m_timer1Counter =
        (s.m_timer1Latch : Int) + 2 - (j : Int)) ∧
    (freerunPeriod cb s).m_IFR &&& VIA_I_T1 ≠ 0 ∧
    (freerunPeriod cb s).m_timer1Counter = (s.m_timer1Latch : Int) + 2 ∧
    (freerunPeriod cb s).m_timer1Latch = s.m_timer1Latch ∧
    (freerunPeriod cb s).m_ACR = s.m_ACR := by
  have hcl : ((readReg cb VIA_REG_T1_C_LO s).2).m_IFR.testBit 6 = false := by
    by_contra hb
    exact (flag_T1_iff _).2 (by simpa using hb) (clear_T1_flag s.m_IFR)
  have hcnt : ((readReg cb VIA_REG_T1_C_LO s).2).m_timer1Counter =
      ((s.m_timer1Latch + 2 : Nat) : Int) := by
    rw [readReg_T1_C_LO_eq]
    dsimp only
    rw [hc]
    push_cast
    rfl
  have hdown := ticks1_countdown (readReg cb VIA_REG_T1_C_LO s).2 (s.m_timer1Latch + 2) hcnt
    (by omega) hcl
  have hlatch0 : ((readReg cb VIA_REG_T1_C_LO s).2).m_timer1Latch = s.m_timer1Latch := rfl
  have hacr0 : ((readReg cb VIA_REG_T1_C_LO s).2).m_ACR = s.m_ACR := rfl
  refine ⟨?_, ?_⟩
  · intro j hj
    obtain ⟨d1, -, -, d4⟩ := hdown j hj
    refine ⟨?_, ?_⟩
    · by_contra hne
      have := (flag_T1_iff _).1 hne
      rw [d4] at this
      exact Bool.false_ne_true this
    · rw [d1]
      push_cast
      rfl
  · obtain ⟨d1, d2, d3, -⟩ := hdown (s.m_timer1Latch + 1) (by omega)
    have hz : (ticks1 (s.m_timer1Latch + 1) (readReg cb VIA_REG_T1_C_LO s).2).m_timer1Counter
        - 1 ≤ 0 := by
      rw [d1]; push_cast; omega
    have hfr : (ticks1 (s.m_timer1Latch + 1) (readReg cb VIA_REG_T1_C_LO s).2).m_ACR
        &&& VIA_ACR_T1_FREERUN ≠ 0 := by
      rw [d3, hacr0]; exact hf
    have hz' : -2147483648 ≤
        (ticks1 (s.m_timer1Latch + 1) (readReg cb VIA_REG_T1_C_LO s).2).m_timer1Counter - 1 := by
      rw [d1]; push_cast; omega
    obtain ⟨f1, f2, f3, -, f5⟩ := tick_T1_freerun 1 _ hz' hz hfr (by rw [d2, hlatch0]; exact hlat)
    have hper : freerunPeriod cb s =
        (tick 1 (ticks1 (s.m_timer1Latch + 1) (readReg cb VIA_REG_T1_C_LO s).2)).2 := by
      unfold freerunPeriod
      exact ticks1_succ _ _
    rw [hper]
    refine ⟨(flag_T1_iff _).2 f5, ?_, ?_, ?_⟩
    · rw [f1, d1, d2, hlatch0]
      push_cast
      omega
    · rw [f2, d2, hlatch0]
    · rw [f3, d3, hacr0]

/-- C3: in free-run mode with Timer A latch `L` (a 16-bit value), a tick that
brings the counter to exactly 0 sets the Timer A flag and reloads the counter to
`(L-1)+3 = L+2`.  From there, for every number `m` of periods already completed
(each one: read counter-low, which clears the flag, then `L+2` single-cycle
ticks, with no write at all), the counter is again `L+2`; after the read, the
flag is clear after each of the first `j < L+2` single-cycle ticks, where the
counter is `L+2-j`, and the `(L+2)`-th tick sets the flag and reloads the
counter to `L+2`. -/
theorem freerun_period (cb : Callbacks) (s : MOS6522) (c : Int)
    (hf : s.m_ACR &&& VIA_ACR_T1_FREERUN ≠ 0) (hlat : s.m_timer1Latch < 65536)
    (hc : s.m_timer1Counter - c = 0) :
    (tick c s).2.m_IFR &&& VIA_I_T1 ≠ 0 ∧
    (tick c s).2.m_timer1Counter = ((s.m_timer1Latch : Int) - 1) + 3 ∧
    (tick c s).2.m_timer1Counter = (s.m_timer1Latch : Int) + 2 ∧
    ∀ m : Nat,
      ((freerunPeriod cb)^[m] (tick c s).2).m_timer1Counter = (s.m_timer1Latch : Int) + 2 ∧
      ((freerunPeriod cb)^[m] (tick c s).2).m_timer1Latch = s.m_timer1Latch ∧
      ((freerunPeriod cb)^[m] (tick c s).2).m_IFR &&& VIA_I_T1 ≠ 0 ∧
      (∀ j, j < s.m_timer1Latch + 2 →
        (ticks1 j (readReg cb VIA_REG_T1_C_LO
          ((freerunPeriod cb)^[m] (tick c s).2)).2).m_IFR &&& VIA_I_T1 = 0 ∧
        (ticks1 j (readReg cb VIA_REG_T1_C_LO
          ((freerunPeriod cb)^[m] (tick c s).2)).2).m_timer1Counter =
            (s.m_timer1Latch : Int) + 2 - (j : Int)) ∧
      (ticks1 (s.m_timer1Latch + 2) (readReg cb VIA_REG_T1_C_LO
        ((freerunPeriod cb)^[m] (tick c s).2)).2).m_IFR &&& VIA_I_T1 ≠ 0 ∧
      (ticks1 (s.m_timer1Latch + 2) (readReg cb VIA_REG_T1_C_LO
        ((freerunPeriod cb)^[m] (tick c s).2)).2).m_timer1Counter =
          (s.m_timer1Latch : Int) + 2 := by
  obtain ⟨f1, f2, f3, -, f5⟩ := tick_T1_freerun c s (by omega) (le_of_eq hc) hf hlat
  have hcnt : (tick c s).2.m_timer1Counter = (s.m_timer1Latch : Int) + 2 := by
    rw [f1, hc]; omega
  refine ⟨(flag_T1_iff _).2 f5, by rw [f1, hc]; omega, hcnt, ?_⟩
  have hinv : ∀ m : Nat,
      ((freerunPeriod cb)^[m] (tick c s).2).m_timer1Counter = (s.m_timer1Latch : Int) + 2 ∧
      ((freerunPeriod cb)^[m] (tick c s).2).m_timer1Latch = s.m_timer1Latch ∧
      ((freerunPeriod cb)^[m] (tick c s).2).m_ACR = s.m_ACR ∧
      ((freerunPeriod cb)^[m] (tick c s).2).m_IFR &&& VIA_I_T1 ≠ 0 := by
    intro m
    induction m with
    | zero => exact ⟨hcnt, f2, f3, (flag_T1_iff _).2 f5⟩
    | succ m ih =>
      obtain ⟨i1, i2, i3, -⟩ := ih
      rw [Function.iterate_succ_apply']
      obtain ⟨-, g2, g3, g4, g5⟩ := freerunPeriod_spec cb _ (by rw [i3]; exact hf)
        (by rw [i2]; exact hlat) (by rw [i1, i2])
      exact ⟨by rw [g3, i2], g4.trans i2, g5.trans i3, g2⟩
  intro m
  obtain ⟨i1, i2, i3, i4⟩ := hinv m
  obtain ⟨g1, g2, g3, -, -⟩ := freerunPeriod_spec cb _ (by rw [i3]; exact hf)
    (by rw [i2]; exact hlat) (by rw [i1, i2])
  rw [i2] at g1 g3
  refine ⟨i1, i2, i4, g1, ?_, ?_⟩
  · have := g2
    rw [freerunPeriod_eq, i2] at this
    exact this
  · have := g3
    rw [freerunPeriod_eq, i2] at this
    exact this

/-- C3 at a concrete input: mode register 0x40 (free-run), latch 3, counter
armed to 3; `tick(3)` brings the counter to 0 and reloads it to 5, and after two
further periods of 5 single-cycle ticks the counter is again 5. -/
theorem freerun_period_witness :
    ((writeReg quietCallbacks VIA_REG_T1_C_HI 0 (writeReg quietCallbacks VIA_REG_T1_C_LO 3
      (writeReg quietCallbacks VIA_REG_ACR 0x40 powerOn))).m_ACR
        &&& VIA_ACR_T1_FREERUN ≠ 0) ∧
    ((writeReg quietCallbacks VIA_REG_T1_C_HI 0 (writeReg quietCallbacks VIA_REG_T1_C_LO 3
      (writeReg quietCallbacks VIA_REG_ACR 0x40 powerOn))).m_timer1Latch < 65536) ∧
    ((writeReg quietCallbacks VIA_REG_T1_C_HI 0 (writeReg quietCallbacks VIA_REG_T1_C_LO 3
      (writeReg quietCallbacks VIA_REG_ACR 0x40 powerOn))).m_timer1Counter - 3 = 0) ∧
    (tick 3 (writeReg quietCallbacks VIA_REG_T1_C_HI 0 (writeReg quietCallbacks VIA_REG_T1_C_LO 3
      (writeReg quietCallbacks VIA_REG_ACR 0x40 powerOn)))).2.m_timer1Counter = 5 ∧
    ((freerunPeriod quietCallbacks)^[2]
      (tick 3 (writeReg quietCallbacks VIA_REG_T1_C_HI 0
        (writeReg quietCallbacks VIA_REG_T1_C_LO 3
          (writeReg quietCallbacks VIA_REG_ACR 0x40 powerOn)))).2).m_timer1Counter = 5 :=
  have h := freerun_period quietCallbacks
    (writeReg quietCallbacks VIA_REG_T1_C_HI 0 (writeReg quietCallbacks VIA_REG_T1_C_LO 3
      (writeReg quietCallbacks VIA_REG_ACR 0x40 powerOn))) 3 (by decide) (by decide)
    (by decide)
  ⟨by decide, by decide, by decide, h.2.2.1.trans (by decide),
    ((h.2.2.2 2).1).trans (by decide)⟩

/-! ## Frame facts for arbitrary registers -/

/-- A register write never sets a flag bit. -/
theorem writeReg_IFR_mono (cb : Callbacks) (hq : cb.Quiet) (reg : Fin 16) (v : Nat)
    (s : MOS6522) (i : Nat) (h : (writeReg cb reg v s).m_IFR.testBit i = true) :
    s.m_IFR.testBit i = true := by
  revert h
  fin_cases reg <;>
    simp [writeReg, reg_defs, quiet_out hq, pcrCA2, pcrCB2] <;>
    (try split_ifs) <;>
    simp [testBit_u8, Nat.testBit_and] <;>
    tauto

/-- A register read never sets a flag bit. -/
theorem readReg_IFR_mono (cb : Callbacks) (hq : cb.Quiet) (reg : Fin 16)
    (s : MOS6522) (i : Nat) (h : (readReg cb reg s).2.m_IFR.testBit i = true) :
    s.m_IFR.testBit i = true := by
  revert h
  fin_cases reg <;>
    simp [readReg, reg_defs, quiet_in hq] <;>
    simp [testBit_u8, Nat.testBit_and] <;>
    tauto

/-- Only the write to the mode register changes the mode register. -/
theorem writeReg_ACR_of_ne (cb : Callbacks) (hq : cb.Quiet) (reg : Fin 16) (v : Nat)
    (s : MOS6522) (hr : reg ≠ VIA_REG_ACR) : (writeReg cb reg v s).m_ACR = s.m_ACR := by
  fin_cases reg <;>
    simp [writeReg, pcrCA2, pcrCB2, reg_defs, quiet_out hq] at hr ⊢ <;>
    (repeat' split) <;> rfl

/-- Only the write to Timer A counter-high changes the Timer A fired marker. -/
theorem writeReg_trig1_of_ne (cb : Callbacks) (hq : cb.Quiet) (reg : Fin 16) (v : Nat)
    (s : MOS6522) (hr : reg ≠ VIA_REG_T1_C_HI) :
    (writeReg cb reg v s).m_timer1Triggered = s.m_timer1Triggered := by
  fin_cases reg <;>
    simp [writeReg, pcrCA2, pcrCB2, reg_defs, quiet_out hq] at hr ⊢ <;>
    (repeat' split) <;> rfl

/-- A register read changes neither the mode register nor the fired marker of
Timer A. -/
theorem readReg_frame (cb : Callbacks) (hq : cb.Quiet) (reg : Fin 16) (s : MOS6522) :
    (readReg cb reg s).2.m_ACR = s.m_ACR ∧
    (readReg cb reg s).2.m_timer1Triggered = s.m_timer1Triggered := by
  fin_cases reg <;> simp [readReg, reg_defs, quiet_in hq]

theorem tickTimer1_IFR_bits (c : Int) (s : MOS6522) (i : Nat)
    (h : (tickTimer1 c s).m_IFR.testBit i = true) : s.m_IFR.testBit i = true ∨ i = 6 := by
  rcases tickTimer1_IFR_cases c s with e | e
  · rw [e] at h; exact Or.inl h
  · rw [e, testBit_set_T1] at h
    simp only [Bool.and_eq_true, Bool.or_eq_true, decide_eq_true_eq] at h
    rcases h.2 with h' | h'
    · exact Or.inl h'
    · exact Or.inr h'.symm

theorem tickTimer2_IFR_bits (c : Int) (s : MOS6522) (i : Nat)
    (h : (tickTimer2 c s).m_IFR.testBit i = true) : s.m_IFR.testBit i = true ∨ i = 5 := by
  rcases tickTimer2_IFR_cases c s with e | e
  · rw [e] at h; exact Or.inl h
  · rw [e, testBit_set_T2] at h
    simp only [Bool.and_eq_true, Bool.or_eq_true, decide_eq_true_eq] at h
    rcases h.2 with h' | h'
    · exact Or.inl h'
    · exact Or.inr h'.symm

theorem tickCA1_IFR_bits (s : MOS6522) (i : Nat)
    (h : (tickCA1 s).m_IFR.testBit i = true) : s.m_IFR.testBit i = true ∨ i = 1 := by
  rw [tickCA1_eq] at h
  dsimp only at h
  split at h
  · rw [testBit_set_CA1] at h
    simp only [Bool.and_eq_true, Bool.or_eq_true, decide_eq_true_eq] at h
    rcases h.2 with h' | h'
    · exact Or.inl h'
    · exact Or.inr h'.symm
  · exact Or.inl h

/-- A tick sets no flag bit other than bits 6, 5 and 1. -/
theorem tick_IFR_bits (c : Int) (s : MOS6522) (i : Nat)
    (h : (tick c s).2.m_IFR.testBit i = true) :
    s.m_IFR.testBit i = true ∨ i = 6 ∨ i = 5 ∨ i = 1 := by
  rw [tick_eq] at h
  dsimp only at h
  rcases tickCA1_IFR_bits _ i h with h1 | h1
  · rcases tickTimer2_IFR_bits c _ i h1 with h2 | h2
    · rcases tickTimer1_IFR_bits c _ i h2 with h3 | h3
      · exact Or.inl h3
      · exact Or.inr (Or.inl h3)
    · exact Or.inr (Or.inr (Or.inl h2))
  · exact Or.inr (Or.inr (Or.inr h1))

/-- In every reachable state the stored flags use bits 0..6 only. -/
theorem reachable_IFR_lt (cb : Callbacks) (hq : cb.Quiet) (s : MOS6522)
    (hs : Reachable cb s) : s.m_IFR < 128 := by
  have key : ∀ i, 7 ≤ i → s.m_IFR.testBit i = false := by
    induction hs with
    | reset s0 =>
      intro i _
      show Nat.testBit 0 i = false
      exact Nat.zero_testBit i
    | write reg v _ _ ih =>
      intro i hi
      by_contra hb
      have := writeReg_IFR_mono cb hq reg v _ i (by simpa using hb)
      rw [ih i hi] at this
      exact Bool.false_ne_true this
    | read reg _ ih =>
      intro i hi
      by_contra hb
      have := readReg_IFR_mono cb hq reg _ i (by simpa using hb)
      rw [ih i hi] at this
      exact Bool.false_ne_true this
    | tick c _ ih =>
      intro i hi
      by_contra hb
      rcases tick_IFR_bits c _ i (by simpa using hb) with h | h | h | h
      · rw [ih i hi] at h
        exact Bool.false_ne_true h
      · omega
      · omega
      · omega
  exact Nat.lt_pow_two_of_testBit (n := 7) _ key

/-! ## C7: the composite bit of the flag register and the result of `tick` -/

theorem tick_fst (c : Int) (s : MOS6522) :
    (tick c s).1 = decide ((tick c s).2.m_IER &&& (tick c s).2.m_IFR &&& 0x7f ≠ 0) := rfl

/-- The value read from the flag register, for stored flags below 128. -/
theorem flag_read_bits (f e : Nat) (hf : f < 128) :
    ((f ||| (if f &&& e ≠ 0 then 0x80 else 0)).testBit 7 = true ↔ f &&& e ≠ 0) ∧
    (f ||| (if f &&& e ≠ 0 then 0x80 else 0)) % 128 = f := by
  have hf7 : ∀ i, 7 ≤ i → f.testBit i = false := fun i hi =>
    testBit_eq_false_of_lt (n := 7) (by simpa using hf) hi
  constructor
  · rw [Nat.testBit_or, hf7 7 (le_refl 7)]
    by_cases h : f &&& e ≠ 0
    · rw [if_pos h, testBit_0x80]
      simpa using h
    · rw [if_neg h, Nat.zero_testBit]
      simpa using h
  · show (f ||| (if f &&& e ≠ 0 then 0x80 else 0)) % 2 ^ 7 = f
    apply Nat.eq_of_testBit_eq
    intro i
    rw [Nat.testBit_mod_two_pow, Nat.testBit_or]
    by_cases hi : i < 7
    · have h7 : ¬ 7 = i := by omega
      by_cases h : f &&& e ≠ 0
      · rw [if_pos h, testBit_0x80]
        simp [hi, h7]
      · rw [if_neg h, Nat.zero_testBit]
        simp [hi]
    · rw [hf7 i (by omega)]
      simp [hi]

/-- C7: in every state reachable from reset through `writeReg` (byte values),
`readReg` and `tick` (quiet callbacks), `readReg(VIA_REG_IFR)` returns the
stored flags OR-ed with 0x80 when `flags AND enables` is non-zero; bit 7 of the
value is set exactly in that case, its low 7 bits are the stored flags, the
read changes nothing; and after any `tick`, bit 7 of the value read is set
exactly when that tick returned true. -/
theorem IFR_composite_bit (cb : Callbacks) (hq : cb.Quiet) (s : MOS6522)
    (hs : Reachable cb s) (c : Int) :
    (readReg cb VIA_REG_IFR s).1 =
      ((s.m_IFR ||| (if s.m_IFR &&& s.m_IER ≠ 0 then 0x80 else 0) : Nat) : Int) ∧
    ((readReg cb VIA_REG_IFR s).1.toNat.testBit 7 = true ↔ s.m_IFR &&& s.m_IER ≠ 0) ∧
    (readReg cb VIA_REG_IFR s).1.toNat % 128 = s.m_IFR ∧
    (readReg cb VIA_REG_IFR s).2 = s ∧
    ((readReg cb VIA_REG_IFR (tick c s).2).1.toNat.testBit 7 = true ↔ (tick c s).1 = true) := by
  have hlt := reachable_IFR_lt cb hq s hs
  have hlt' := reachable_IFR_lt cb hq _ (Reachable.tick c hs)
  obtain ⟨a1, a2⟩ := flag_read_bits s.m_IFR s.m_IER hlt
  obtain ⟨b1, -⟩ := flag_read_bits (tick c s).2.m_IFR (tick c s).2.m_IER hlt'
  refine ⟨rfl, ?_, ?_, rfl, ?_⟩
  · rw [readReg_IFR]
    exact a1
  · rw [readReg_IFR]
    exact a2
  · rw [readReg_IFR]
    dsimp only
    rw [Int.toNat_ofNat, b1, tick_fst]
    have hmask : (tick c s).2.m_IER &&& (tick c s).2.m_IFR &&& 0x7f =
        (tick c s).2.m_IFR &&& (tick c s).2.m_IER := by
      have hle : (tick c s).2.m_IER &&& (tick c s).2.m_IFR < 2 ^ 7 :=
        lt_of_le_of_lt Nat.and_le_right (by simpa using hlt')
      have := Nat.and_pow_two_sub_one_of_lt_two_pow hle
      rw [Nat.and_comm (tick c s).2.m_IFR]
      exact this
    rw [hmask]
    simp

/-- C7 at a concrete reachable state: power-on, enable the Timer A interrupt,
one tick (both timers fire): the flag register reads 0xE0 and the tick returned
true. -/
theorem IFR_composite_bit_witness :
    quietCallbacks.Quiet ∧
    Reachable quietCallbacks (writeReg quietCallbacks VIA_REG_IER 0xC0 (reset powerOn)) ∧
    (readReg quietCallbacks VIA_REG_IFR
      (tick 1 (writeReg quietCallbacks VIA_REG_IER 0xC0 (reset powerOn))).2).1 = 0xE0 ∧
    ((readReg quietCallbacks VIA_REG_IFR
      (tick 1 (writeReg quietCallbacks VIA_REG_IER 0xC0 (reset powerOn))).2).1.toNat.testBit 7
        = true ↔
      (tick 1 (writeReg quietCallbacks VIA_REG_IER 0xC0 (reset powerOn))).1 = true) :=
  have hr : Reachable quietCallbacks (writeReg quietCallbacks VIA_REG_IER 0xC0 (reset powerOn)) :=
    Reachable.write VIA_REG_IER 0xC0 (Reachable.reset powerOn) (by decide)
  have h := IFR_composite_bit quietCallbacks quietCallbacks_quiet _ hr 1
  ⟨quietCallbacks_quiet, hr, by decide, h.2.2.2.2⟩

/-! ## C2: one-shot Timer A fires once per arming -/

/-- An access other than a write to Timer A counter-high or to the mode
register keeps Timer A fired and in one-shot mode, and does not set the Timer A
flag. -/
theorem step_after_fired (cb : Callbacks) (hq : cb.Quiet) (t : MOS6522) (op : Op)
    (hop : op.keepsArming) (hf : t.m_ACR &&& VIA_ACR_T1_FREERUN = 0)
    (ht : t.m_timer1Triggered = true) :
    (step cb t op).m_ACR &&& VIA_ACR_T1_FREERUN = 0 ∧
    (step cb t op).m_timer1Triggered = true ∧
    ((step cb t op).m_IFR.testBit 6 = true → t.m_IFR.testBit 6 = true) := by
  cases op with
  | write reg v =>
    obtain ⟨h1, h2⟩ := hop
    refine ⟨?_, ?_, ?_⟩
    · show (writeReg cb reg v t).m_ACR &&& VIA_ACR_T1_FREERUN = 0
      rw [writeReg_ACR_of_ne cb hq reg v t h2]
      exact hf
    · show (writeReg cb reg v t).m_timer1Triggered = true
      rw [writeReg_trig1_of_ne cb hq reg v t h1]
      exact ht
    · exact writeReg_IFR_mono cb hq reg v t 6
  | read reg =>
    obtain ⟨h1, h2⟩ := readReg_frame cb hq reg t
    refine ⟨?_, ?_, ?_⟩
    · show (readReg cb reg t).2.m_ACR &&& VIA_ACR_T1_FREERUN = 0
      rw [h1]
      exact hf
    · show (readReg cb reg t).2.m_timer1Triggered = true
      rw [h2]
      exact ht
    · exact readReg_IFR_mono cb hq reg t 6
  | tick c =>
    obtain ⟨h1, h2, h3⟩ := tick_T1_after_fired c t hf ht
    refine ⟨?_, h2, ?_⟩
    · show (tick c t).2.m_ACR &&& VIA_ACR_T1_FREERUN = 0
      rw [h1]
      exact hf
    · intro h
      have h' : (tick c t).2.m_IFR.testBit 6 = true := h
      rw [h3] at h'
      exact h'

/-- The same along a whole sequence of such accesses. -/
theorem run_after_fired (cb : Callbacks) (hq : cb.Quiet) (ops : List Op) (t : MOS6522)
    (hops : ∀ op ∈ ops, op.keepsArming) (hf : t.m_ACR &&& VIA_ACR_T1_FREERUN = 0)
    (ht : t.m_timer1Triggered = true) :
    (run cb t ops).m_ACR &&& VIA_ACR_T1_FREERUN = 0 ∧
    (run cb t ops).m_timer1Triggered = true ∧
    ((run cb t ops).m_IFR.testBit 6 = true → t.m_IFR.testBit 6 = true) := by
  induction ops generalizing t with
  | nil => exact ⟨hf, ht, id⟩
  | cons op rest ih =>
    obtain ⟨s1, s2, s3⟩ := step_after_fired cb hq t op (hops op (List.mem_cons_self _ _)) hf ht
    obtain ⟨r1, r2, r3⟩ := ih (step cb t op)
      (fun o ho => hops o (List.mem_cons_of_mem _ ho)) s1 s2
    exact ⟨r1, r2, fun h => s3 (r3 h)⟩

theorem run_append (cb : Callbacks) (t : MOS6522) (ops1 ops2 : List Op) :
    run cb t (ops1 ++ ops2) = run cb (run cb t ops1) ops2 :=
  List.foldl_append _ _ _ _

/-- C2: with the free-run bit clear, `writeReg(VIA_REG_T1_C_LO, l)` then
`writeReg(VIA_REG_T1_C_HI, h)` arm the counter to `L = 256*h + l`; a `tick(n)`
with `n ≥ L`, `n` an `int`, sets the Timer A flag and the fired marker.  Thereafter, along
every sequence of ticks and register accesses other than writes to Timer A
counter-high or to the mode register (quiet callbacks), a tick leaves the
Timer A flag set only if it was set before that tick, and once the flag is
clear it is clear after every further such sequence. -/
theorem oneshot_fires_once (cb : Callbacks) (hq : cb.Quiet) (s : MOS6522) (l h : Nat)
    (n : Int) (hl : l < 256) (hh : h < 256)
    (hmode : s.m_ACR &&& VIA_ACR_T1_FREERUN = 0) (hn : ((256 * h + l : Nat) : Int) ≤ n)
    (hn32 : n ≤ 2147483647) :
    (writeReg cb VIA_REG_T1_C_HI h (writeReg cb VIA_REG_T1_C_LO l s)).m_timer1Counter =
      ((256 * h + l : Nat) : Int) ∧
    (tick n (writeReg cb VIA_REG_T1_C_HI h (writeReg cb VIA_REG_T1_C_LO l s))).2.m_IFR
      &&& VIA_I_T1 ≠ 0 ∧
    (tick n (writeReg cb VIA_REG_T1_C_HI h
      (writeReg cb VIA_REG_T1_C_LO l s))).2.m_timer1Triggered = true ∧
    ∀ ops : List Op, (∀ op ∈ ops, op.keepsArming) →
      (∀ c : Int,
        (tick c (run cb (tick n (writeReg cb VIA_REG_T1_C_HI h
          (writeReg cb VIA_REG_T1_C_LO l s))).2 ops)).2.m_IFR &&& VIA_I_T1 ≠ 0 →
        (run cb (tick n (writeReg cb VIA_REG_T1_C_HI h
          (writeReg cb VIA_REG_T1_C_LO l s))).2 ops).m_IFR &&& VIA_I_T1 ≠ 0) ∧
      (∀ ops2 : List Op, (∀ op ∈ ops2, op.keepsArming) →
        (run cb (tick n (writeReg cb VIA_REG_T1_C_HI h
          (writeReg cb VIA_REG_T1_C_LO l s))).2 ops).m_IFR &&& VIA_I_T1 = 0 →
        (run cb (tick n (writeReg cb VIA_REG_T1_C_HI h
          (writeReg cb VIA_REG_T1_C_LO l s))).2 (ops ++ ops2)).m_IFR &&& VIA_I_T1 = 0) := by
  obtain ⟨c1, -, -, c4, c5⟩ :=
    writeReg_T1_C_HI_arms cb h (writeReg cb VIA_REG_T1_C_LO l s) hh
  obtain ⟨a1, a2, -⟩ := latch_low_store s.m_timer1Latch l hl
  have hlow : (writeReg cb VIA_REG_T1_C_LO l s).m_timer1Latch % 256 = l := by
    rw [writeReg_T1_C_LO_eq]
    dsimp only
    rw [a1]
    have e := a2
    rw [show ∀ x : Nat, x &&& 0xff = x % 2 ^ 8 from
      fun x => Nat.and_pow_two_sub_one_eq_mod x 8] at e
    exact e
  have hcnt : (writeReg cb VIA_REG_T1_C_HI h (writeReg cb VIA_REG_T1_C_LO l s)).m_timer1Counter =
      ((256 * h + l : Nat) : Int) := by
    rw [c1, hlow]
  have hacr : (writeReg cb VIA_REG_T1_C_HI h (writeReg cb VIA_REG_T1_C_LO l s)).m_ACR
      &&& VIA_ACR_T1_FREERUN = 0 := by
    rw [c5, writeReg_T1_C_LO_eq]
    exact hmode
  obtain ⟨-, -, q3, q4, q5⟩ :=
    tick_T1_fire n _ (by rw [hcnt]; omega) (by rw [hcnt]; omega) hacr c4
  have hfr : (tick n (writeReg cb VIA_REG_T1_C_HI h
      (writeReg cb VIA_REG_T1_C_LO l s))).2.m_ACR &&& VIA_ACR_T1_FREERUN = 0 := by
    rw [q3]; exact hacr
  refine ⟨hcnt, (flag_T1_iff _).2 q5, q4, ?_⟩
  intro ops hops
  obtain ⟨r1, r2, -⟩ := run_after_fired cb hq ops _ hops hfr q4
  refine ⟨?_, ?_⟩
  · intro c hset
    obtain ⟨-, -, t3⟩ := tick_T1_after_fired c _ r1 r2
    rw [flag_T1_iff] at hset ⊢
    rw [t3] at hset
    exact hset
  · intro ops2 hops2 hclear
    rw [run_append]
    obtain ⟨-, -, u3⟩ := run_after_fired cb hq ops2 _ hops2 r1 r2
    by_contra hne
    exact (flag_T1_iff _).2 (u3 ((flag_T1_iff _).1 hne)) hclear

/-- C2 at a concrete input: from power-on (one-shot), `l = 5`, `h = 0`,
`tick(6)` fires; after reading counter-low (flag cleared) and two more ticks
the flag is still clear. -/
theorem oneshot_fires_once_witness :
    quietCallbacks.Quiet ∧ (5 < 256) ∧ (0 < 256) ∧
    (powerOn.m_ACR &&& VIA_ACR_T1_FREERUN = 0) ∧ (((256 * 0 + 5 : Nat) : Int) ≤ 6) ∧
    ((6 : Int) ≤ 2147483647) ∧
    (tick 6 (writeReg quietCallbacks VIA_REG_T1_C_HI 0
      (writeReg quietCallbacks VIA_REG_T1_C_LO 5 powerOn))).2.m_IFR &&& VIA_I_T1 ≠ 0 ∧
    (run quietCallbacks (tick 6 (writeReg quietCallbacks VIA_REG_T1_C_HI 0
      (writeReg quietCallbacks VIA_REG_T1_C_LO 5 powerOn))).2
      ([Op.read VIA_REG_T1_C_LO] ++ [Op.tick 70000, Op.tick 3])).m_IFR &&& VIA_I_T1 = 0 :=
  have h := oneshot_fires_once quietCallbacks quietCallbacks_quiet powerOn 5 0 6
    (by decide) (by decide) (by decide) (by decide) (by decide)
  ⟨quietCallbacks_quiet, by decide, by decide, by decide, by decide, by decide, h.2.1,
    (h.2.2.2 [Op.read VIA_REG_T1_C_LO]
      (by intro op hop; rw [List.mem_singleton] at hop; subst hop; trivial)).2
      [Op.tick 70000, Op.tick 3]
      (by
        intro op hop
        rcases List.mem_cons.1 hop with e | e
        · subst e; trivial
        · rw [List.mem_singleton] at e; subst e; trivial)
      (by decide)⟩

/-! ## C11: write of output register B -/

/-- C11 (code at the failing input): with direction B = 0b00001111 and the
stored output register B = 0xF0 (set up through the register interface), the
write of 0xAB leaves 0xAB in the stored register and a read returns 0xAB,
whereas the masked store `(v AND d) OR (p AND NOT d)` is 0xFB; the two Port B
edge flags are cleared and the other flags kept (0x7F becomes 0x67). -/
theorem writeReg_ORB_clobbers_previous :
    (writeReg quietCallbacks VIA_REG_DDRB 0x0F
        (writeReg quietCallbacks VIA_REG_ORB 0xF0
          (writeReg quietCallbacks VIA_REG_DDRB 0xFF powerOn))).m_regs VIA_REG_DDRB = 0x0F ∧
    (writeReg quietCallbacks VIA_REG_DDRB 0x0F
        (writeReg quietCallbacks VIA_REG_ORB 0xF0
          (writeReg quietCallbacks VIA_REG_DDRB 0xFF powerOn))).m_regs VIA_REG_ORB = 0xF0 ∧
    (writeReg quietCallbacks VIA_REG_ORB 0xAB
        (writeReg quietCallbacks VIA_REG_DDRB 0x0F
          (writeReg quietCallbacks VIA_REG_ORB 0xF0
            (writeReg quietCallbacks VIA_REG_DDRB 0xFF powerOn)))).m_regs VIA_REG_ORB = 0xAB ∧
    (readReg quietCallbacks VIA_REG_ORB
        (writeReg quietCallbacks VIA_REG_ORB 0xAB
          (writeReg quietCallbacks VIA_REG_DDRB 0x0F
            (writeReg quietCallbacks VIA_REG_ORB 0xF0
              (writeReg quietCallbacks VIA_REG_DDRB 0xFF powerOn))))).1 = 0xAB ∧
    (0xAB &&& 0x0F) ||| (0xF0 &&& (0xFF ^^^ 0x0F)) = 0xFB ∧
    (writeReg quietCallbacks VIA_REG_ORB 0xAB
        { writeReg quietCallbacks VIA_REG_DDRB 0x0F
            (writeReg quietCallbacks VIA_REG_ORB 0xF0
              (writeReg quietCallbacks VIA_REG_DDRB 0xFF powerOn)) with m_IFR := 0x7F }).m_IFR
      = 0x67 := by
  refine ⟨by decide, by decide, by decide, by decide, by decide, by decide⟩

/-! ## C12: no-handshake write of output register A -/

theorem writeReg_ORA_NH_regs (cb : Callbacks) (h : cb.Quiet) (v : Nat) (s : MOS6522) :
    (writeReg cb VIA_REG_ORA_NH v s).m_regs VIA_REG_ORA =
      u8 (v ||| (s.m_regs VIA_REG_ORA &&& cnot (s.m_regs VIA_REG_DDRA))) := by
  simp [writeReg, reg_defs, quiet_out h]

theorem writeReg_ORA_NH_IFR (cb : Callbacks) (h : cb.Quiet) (v : Nat) (s : MOS6522) :
    (writeReg cb VIA_REG_ORA_NH v s).m_IFR = s.m_IFR := by
  simp [writeReg, reg_defs, quiet_out h]

theorem readReg_ORA_NH_eq (cb : Callbacks) (h : cb.Quiet) (s : MOS6522) :
    readReg cb VIA_REG_ORA_NH s = ((s.m_regs VIA_REG_ORA : Int), s) := by
  simp [readReg, reg_defs, quiet_in h]

/-- The byte the output-register cases compute from bytes `v`, `p`. -/
theorem or_retained_byte (v p d : Nat) (hv : v < 256) (hp : p < 256) :
    u8 (v ||| (p &&& cnot d)) = v ||| (p &&& (0xFF ^^^ d)) := by
  apply Nat.eq_of_testBit_eq
  intro i
  simp only [testBit_u8, Nat.testBit_or, Nat.testBit_and, testBit_cnot, Nat.testBit_xor,
    testBit_0xff]
  by_cases h8 : i < 8
  · have h32 : i < 32 := by omega
    simp [h8, h32]
  · have hvi : v.testBit i = false :=
      testBit_eq_false_of_lt (n := 8) (by simpa using hv) (by omega)
    have hpi : p.testBit i = false :=
      testBit_eq_false_of_lt (n := 8) (by simpa using hp) (by omega)
    simp [h8, hvi, hpi]

/-- C12 (counterexample): with direction A = 0b00001111 and the stored output
register A = 0x00 (power-on), the no-handshake write of 0xAB stores 0xAB, and
both reads return 0xAB, whereas `(v AND d) OR (p AND NOT d)` is 0x0B: the bits
of `v` outside `d` do reach the stored register. -/
theorem writeReg_ORA_NH_not_masked :
    (writeReg quietCallbacks VIA_REG_DDRA 0x0F powerOn).m_regs VIA_REG_DDRA = 0x0F ∧
    (writeReg quietCallbacks VIA_REG_DDRA 0x0F powerOn).m_regs VIA_REG_ORA = 0x00 ∧
    (writeReg quietCallbacks VIA_REG_ORA_NH 0xAB
      (writeReg quietCallbacks VIA_REG_DDRA 0x0F powerOn)).m_regs VIA_REG_ORA = 0xAB ∧
    (readReg quietCallbacks VIA_REG_ORA_NH (writeReg quietCallbacks VIA_REG_ORA_NH 0xAB
      (writeReg quietCallbacks VIA_REG_DDRA 0x0F powerOn))).1 = 0xAB ∧
    (readReg quietCallbacks VIA_REG_ORA (writeReg quietCallbacks VIA_REG_ORA_NH 0xAB
      (writeReg quietCallbacks VIA_REG_DDRA 0x0F powerOn))).1 = 0xAB ∧
    (0xAB &&& 0x0F) ||| (0x00 &&& (0xFF ^^^ 0x0F)) = 0x0B ∧
    (writeReg quietCallbacks VIA_REG_ORA_NH 0xAB
      (writeReg quietCallbacks VIA_REG_DDRA 0x0F powerOn)).m_regs VIA_REG_ORA ≠
        (0xAB &&& 0x0F) ||| (0x00 &&& (0xFF ^^^ 0x0F)) := by
  refine ⟨by decide, by decide, by decide, by decide, by decide, by decide, by decide⟩

/-- C12 (amended): for bytes `v` and `p` (the stored output register A) and
direction `d`, with quiet callbacks, after `writeReg(VIA_REG_ORA_NH, v)` the
stored output register A is `v OR (p AND NOT d)`; `readReg(VIA_REG_ORA_NH)` and
`readReg(VIA_REG_ORA)` both return it; every bit of `v` is in the stored
register, a bit outside `v` is set exactly when it is a non-driven bit that was
set in `p`; and the write leaves the flag register as it was. -/
theorem no_handshake_write_ORA (cb : Callbacks) (hq : cb.Quiet) (s : MOS6522) (v : Nat)
    (hv : v < 256) (hp : s.m_regs VIA_REG_ORA < 256) :
    (writeReg cb VIA_REG_ORA_NH v s).m_regs VIA_REG_ORA =
      v ||| (s.m_regs VIA_REG_ORA &&& (0xFF ^^^ s.m_regs VIA_REG_DDRA)) ∧
    (readReg cb VIA_REG_ORA_NH (writeReg cb VIA_REG_ORA_NH v s)).1 =
      ((v ||| (s.m_regs VIA_REG_ORA &&& (0xFF ^^^ s.m_regs VIA_REG_DDRA)) : Nat) : Int) ∧
    (readReg cb VIA_REG_ORA (writeReg cb VIA_REG_ORA_NH v s)).1 =
      ((v ||| (s.m_regs VIA_REG_ORA &&& (0xFF ^^^ s.m_regs VIA_REG_DDRA)) : Nat) : Int) ∧
    (∀ i, i < 8 →
      ((writeReg cb VIA_REG_ORA_NH v s).m_regs VIA_REG_ORA).testBit i =
        (v.testBit i ||
          ((s.m_regs VIA_REG_ORA).testBit i && !(s.m_regs VIA_REG_DDRA).testBit i))) ∧
    (writeReg cb VIA_REG_ORA_NH v s).m_IFR = s.m_IFR := by
  have e : (writeReg cb VIA_REG_ORA_NH v s).m_regs VIA_REG_ORA =
      v ||| (s.m_regs VIA_REG_ORA &&& (0xFF ^^^ s.m_regs VIA_REG_DDRA)) := by
    rw [writeReg_ORA_NH_regs cb hq, or_retained_byte v _ _ hv hp]
  refine ⟨e, ?_, ?_, ?_, writeReg_ORA_NH_IFR cb hq v s⟩
  · rw [readReg_ORA_NH_eq cb hq, e]
  · rw [readReg_ORA_fst cb hq, e]
  · intro i hi
    rw [e]
    simp only [Nat.testBit_or, Nat.testBit_and, Nat.testBit_xor, testBit_0xff]
    simp [hi]

/-- C12 (amended) at a concrete input: direction 0x0F, stored 0x00, written
0xAB gives 0xAB. -/
theorem no_handshake_write_ORA_witness :
    quietCallbacks.Quiet ∧ (0xAB < 256) ∧
    ((writeReg quietCallbacks VIA_REG_DDRA 0x0F powerOn).m_regs VIA_REG_ORA < 256) ∧
    (writeReg quietCallbacks VIA_REG_ORA_NH 0xAB
      (writeReg quietCallbacks VIA_REG_DDRA 0x0F powerOn)).m_regs VIA_REG_ORA = 0xAB ∧
    (readReg quietCallbacks VIA_REG_ORA_NH (writeReg quietCallbacks VIA_REG_ORA_NH 0xAB
      (writeReg quietCallbacks VIA_REG_DDRA 0x0F powerOn))).1 = 0xAB :=
  have h := no_handshake_write_ORA quietCallbacks quietCallbacks_quiet
    (writeReg quietCallbacks VIA_REG_DDRA 0x0F powerOn) 0xAB (by decide) (by decide)
  ⟨quietCallbacks_quiet, by decide, by decide, h.1.trans (by decide),
    h.2.1.trans (by decide)⟩

/-! ## C13: the Timer B block of `tick` -/

theorem tickTimer2_pulses (c : Int) (s : MOS6522)
    (h : s.m_ACR &&& VIA_ACR_T2_COUNTPULSES ≠ 0) : tickTimer2 c s = s := by
  simp [tickTimer2, h]

theorem tickTimer2_fire (c : Int) (s : MOS6522)
    (h : s.m_ACR &&& VIA_ACR_T2_COUNTPULSES = 0)
    (hlo : -2147483648 ≤ s.m_timer2Counter - c)
    (hz : s.m_timer2Counter - c ≤ 0) (ht : s.m_timer2Triggered = false) :
    tickTimer2 c s =
      { s with
        m_timer2Counter := s.m_timer2Counter - c + 0xFFFF
        m_timer2Triggered := true
        m_IFR := u8 (s.m_IFR ||| VIA_I_T2) } := by
  have e : wrap32 (s.m_timer2Counter - c) = s.m_timer2Counter - c :=
    wrap32_eq hlo (by omega)
  have e2 : wrap32 (s.m_timer2Counter - c + 0xFFFF) = s.m_timer2Counter - c + 0xFFFF :=
    wrap32_eq (by omega) (by omega)
  have hnt : ¬ (s.m_timer2Triggered = true) := by rw [ht]; exact Bool.false_ne_true
  unfold tickTimer2
  rw [if_pos h]
  dsimp only
  rw [e, if_pos ⟨hz, hnt⟩, e2]

theorem tickTimer2_nofire (c : Int) (s : MOS6522)
    (h : s.m_ACR &&& VIA_ACR_T2_COUNTPULSES = 0)
    (hlo : -2147483648 ≤ s.m_timer2Counter - c) (hhi : s.m_timer2Counter - c < 2147483648)
    (hn : ¬ (s.m_timer2Counter - c ≤ 0 ∧ s.m_timer2Triggered = false)) :
    tickTimer2 c s = { s with m_timer2Counter := s.m_timer2Counter - c } := by
  have e : wrap32 (s.m_timer2Counter - c) = s.m_timer2Counter - c := wrap32_eq hlo hhi
  unfold tickTimer2
  rw [if_pos h]
  dsimp only
  rw [e, if_neg]
  intro hc
  apply hn
  refine ⟨hc.1, ?_⟩
  simpa using hc.2

/-- Once Timer B has fired, the Timer 2 block keeps the fired marker and the
flags, whatever the counter, the cycles and the mode register are. -/
theorem tickTimer2_after_fired (c : Int) (s : MOS6522) (ht : s.m_timer2Triggered = true) :
    (tickTimer2 c s).m_timer2Triggered = true ∧ (tickTimer2 c s).m_IFR = s.m_IFR := by
  unfold tickTimer2
  by_cases h : s.m_ACR &&& VIA_ACR_T2_COUNTPULSES = 0
  · rw [if_pos h]
    dsimp only
    rw [if_neg]
    · exact ⟨ht, rfl⟩
    · rintro ⟨-, hf⟩
      exact hf ht
  · rw [if_neg h]
    exact ⟨ht, rfl⟩

/-- The Timer 1 and CA1 blocks leave the Timer B members and flag bit 5 as the
Timer 2 block produces them. -/
theorem tick_timer2 (c : Int) (s : MOS6522) :
    (tick c s).2.m_timer2Counter = (tickTimer2 c (tickTimer1 c s)).m_timer2Counter ∧
    (tick c s).2.m_timer2Triggered = (tickTimer2 c (tickTimer1 c s)).m_timer2Triggered ∧
    (tick c s).2.m_IFR.testBit 5 = (tickTimer2 c (tickTimer1 c s)).m_IFR.testBit 5 ∧
    (tickTimer1 c s).m_timer2Counter = s.m_timer2Counter ∧
    (tickTimer1 c s).m_timer2Triggered = s.m_timer2Triggered ∧
    (tickTimer1 c s).m_ACR = s.m_ACR ∧
    (tickTimer1 c s).m_IFR.testBit 5 = s.m_IFR.testBit 5 := by
  obtain ⟨-, -, -, hA1, -, -, hC1, hT1⟩ := tickTimer1_frame c s
  have hbit : (tickCA1 (tickTimer2 c (tickTimer1 c s))).m_IFR.testBit 5 =
      (tickTimer2 c (tickTimer1 c s)).m_IFR.testBit 5 :=
    tickCA1_testBit _ 5 (by decide) (by decide)
  rw [tick_eq]
  dsimp only
  rw [tickCA1_eq] at hbit ⊢
  dsimp only at hbit ⊢
  exact ⟨rfl, rfl, hbit, hC1, hT1, hA1, tickTimer1_testBit c s 5 (by decide) (by decide)⟩

/-- What one tick does to Timer B while the 32-bit counter stays in range. -/
theorem tick_T2_cases (c : Int) (s : MOS6522) :
    (s.m_ACR &&& VIA_ACR_T2_COUNTPULSES ≠ 0 →
      (tick c s).2.m_timer2Counter = s.m_timer2Counter ∧
      (tick c s).2.m_timer2Triggered = s.m_timer2Triggered ∧
      (tick c s).2.m_IFR.testBit 5 = s.m_IFR.testBit 5) ∧
    (s.m_ACR &&& VIA_ACR_T2_COUNTPULSES = 0 →
      -2147483648 ≤ s.m_timer2Counter - c → s.m_timer2Counter - c < 2147483648 →
      (s.m_timer2Counter - c ≤ 0 ∧ s.m_timer2Triggered = false →
        (tick c s).2.m_timer2Counter = s.m_timer2Counter - c + 0xFFFF ∧
        (tick c s).2.m_timer2Triggered = true ∧
        (tick c s).2.m_IFR.testBit 5 = true) ∧
      (¬ (s.m_timer2Counter - c ≤ 0 ∧ s.m_timer2Triggered = false) →
        (tick c s).2.m_timer2Counter = s.m_timer2Counter - c ∧
        (tick c s).2.m_timer2Triggered = s.m_timer2Triggered ∧
        (tick c s).2.m_IFR.testBit 5 = s.m_IFR.testBit 5)) := by
  obtain ⟨h1, h2, h3, k1, k2, k3, k4⟩ := tick_timer2 c s
  refine ⟨?_, ?_⟩
  · intro hp
    rw [tickTimer2_pulses c _ (by rw [k3]; exact hp)] at h1 h2 h3
    exact ⟨h1.trans k1, h2.trans k2, h3.trans k4⟩
  · intro hcy hlo hhi
    have hcy' : (tickTimer1 c s).m_ACR &&& VIA_ACR_T2_COUNTPULSES = 0 := by rw [k3]; exact hcy
    refine ⟨?_, ?_⟩
    · rintro ⟨hz, ht⟩
      rw [tickTimer2_fire c _ hcy' (by rw [k1]; exact hlo) (by rw [k1]; exact hz)
        (by rw [k2]; exact ht)] at h1 h2 h3
      dsimp only at h1 h2 h3
      refine ⟨by rw [h1, k1], h2, ?_⟩
      rw [h3, testBit_set_T2]
      simp
    · intro hn
      rw [tickTimer2_nofire c _ hcy' (by rw [k1]; exact hlo) (by rw [k1]; exact hhi)
        (by rw [k1, k2]; exact hn)] at h1 h2 h3
      dsimp only at h1 h2 h3
      exact ⟨by rw [h1, k1], h2.trans k2, h3.trans k4⟩

/-- Once Timer B has fired, a tick keeps the fired marker and leaves the
Timer B flag as it found it, whatever the mode register holds. -/
theorem tick_T2_after_fired (c : Int) (s : MOS6522) (ht : s.m_timer2Triggered = true) :
    (tick c s).2.m_timer2Triggered = true ∧
    (tick c s).2.m_IFR.testBit 5 = s.m_IFR.testBit 5 := by
  obtain ⟨-, h2, h3, -, k2, -, k4⟩ := tick_timer2 c s
  obtain ⟨a1, a2⟩ := tickTimer2_after_fired c (tickTimer1 c s) (by rw [k2]; exact ht)
  rw [a1] at h2
  rw [a2, k4] at h3
  exact ⟨h2, h3⟩

/-- Only the write to Timer B counter-high changes the Timer B fired marker. -/
theorem writeReg_trig2_of_ne (cb : Callbacks) (hq : cb.Quiet) (reg : Fin 16) (v : Nat)
    (s : MOS6522) (hr : reg ≠ VIA_REG_T2_C_HI) :
    (writeReg cb reg v s).m_timer2Triggered = s.m_timer2Triggered := by
  fin_cases reg <;>
    simp [writeReg, pcrCA2, pcrCB2, reg_defs, quiet_out hq] at hr ⊢ <;>
    (repeat' split) <;> rfl

/-- A register read does not change the Timer B fired marker. -/
theorem readReg_trig2 (cb : Callbacks) (hq : cb.Quiet) (reg : Fin 16) (s : MOS6522) :
    (readReg cb reg s).2.m_timer2Triggered = s.m_timer2Triggered := by
  fin_cases reg <;> simp [readReg, reg_defs, quiet_in hq]

/-- An access other than a write to Timer B counter-high keeps Timer B fired
and does not set the Timer B flag. -/
theorem step_T2_after_fired (cb : Callbacks) (hq : cb.Quiet) (t : MOS6522) (op : Op)
    (hop : op.keepsTimer2) (ht : t.m_timer2Triggered = true) :
    (step cb t op).m_timer2Triggered = true ∧
    ((step cb t op).m_IFR.testBit 5 = true → t.m_IFR.testBit 5 = true) := by
  cases op with
  | write reg v =>
    refine ⟨?_, writeReg_IFR_mono cb hq reg v t 5⟩
    show (writeReg cb reg v t).m_timer2Triggered = true
    rw [writeReg_trig2_of_ne cb hq reg v t hop]
    exact ht
  | read reg =>
    refine ⟨?_, readReg_IFR_mono cb hq reg t 5⟩
    show (readReg cb reg t).2.m_timer2Triggered = true
    rw [readReg_trig2 cb hq reg t]
    exact ht
  | tick c =>
    obtain ⟨h1, h2⟩ := tick_T2_after_fired c t ht
    refine ⟨h1, ?_⟩
    intro h
    have h' : (tick c t).2.m_IFR.testBit 5 = true := h
    rw [h2] at h'
    exact h'

theorem run_T2_after_fired (cb : Callbacks) (hq : cb.Quiet) (ops : List Op) (t : MOS6522)
    (hops : ∀ op ∈ ops, op.keepsTimer2) (ht : t.m_timer2Triggered = true) :
    (run cb t ops).m_timer2Triggered = true ∧
    ((run cb t ops).m_IFR.testBit 5 = true → t.m_IFR.testBit 5 = true) := by
  induction ops generalizing t with
  | nil => exact ⟨ht, id⟩
  | cons op rest ih =>
    obtain ⟨s1, s2⟩ := step_T2_after_fired cb hq t op (hops op (List.mem_cons_self _ _)) ht
    obtain ⟨r1, r2⟩ := ih (step cb t op) (fun o ho => hops o (List.mem_cons_of_mem _ ho)) s1
    exact ⟨r1, fun h => s2 (r2 h)⟩

/-- C13 (counterexample): from reset (cycle-counting), `tick(5)` fires
Timer B and `tick(2147483647)` leaves its counter at -2147418117 with the fired
marker set.  A further `tick(2147483647)` (cycles `≥ 0`, timer already fired,
so nothing is to be added) does not leave the counter decremented by the
cycles, which would be -4294901764: the 32-bit counter wraps and is left at
65532, and `readReg(VIA_REG_T2_C_HI)` returns 255. -/
theorem timer2_decrement_wraps :
    ((tick 2147483647 (tick 5 (reset powerOn)).2).2.m_ACR &&& VIA_ACR_T2_COUNTPULSES = 0) ∧
    (0 : Int) ≤ 2147483647 ∧
    (tick 2147483647 (tick 5 (reset powerOn)).2).2.m_timer2Triggered = true ∧
    (tick 2147483647 (tick 5 (reset powerOn)).2).2.m_timer2Counter = -2147418117 ∧
    (tick 2147483647 (tick 2147483647 (tick 5 (reset powerOn)).2).2).2.m_timer2Counter
      = 65532 ∧
    (readReg quietCallbacks VIA_REG_T2_C_HI
      (tick 2147483647 (tick 2147483647 (tick 5 (reset powerOn)).2).2).2).1 = 255 ∧
    (tick 2147483647 (tick 5 (reset powerOn)).2).2.m_timer2Counter - 2147483647
      = -4294901764 ∧
    (tick 2147483647 (tick 2147483647 (tick 5 (reset powerOn)).2).2).2.m_timer2Counter ≠
      (tick 2147483647 (tick 5 (reset powerOn)).2).2.m_timer2Counter - 2147483647 := by
  refine ⟨by decide, by decide, by decide, by decide, by decide, by decide, by decide,
    by decide⟩

/-- C13 (amended): for every state and every `cycles`: in pulse-counting mode
`tick` leaves the Timer B counter, fired marker and flag unchanged; in
cycle-counting mode, as long as `counter - cycles` stays in the range of the
32-bit counter (`-2^31 ≤ counter - cycles < 2^31`), the counter is decremented
by `cycles` and, exactly when the result is `≤ 0` and the timer has not yet
fired, 0xFFFF is added, the fired marker is set and the Timer B flag is set
(otherwise marker and flag are unchanged).  Once fired, along every sequence of
accesses other than a write to Timer B counter-high (quiet callbacks), no tick
sets the Timer B flag. -/
theorem timer2_tick (cb : Callbacks) (hq : cb.Quiet) (c : Int) (s : MOS6522) :
    (s.m_ACR &&& VIA_ACR_T2_COUNTPULSES ≠ 0 →
      (tick c s).2.m_timer2Counter = s.m_timer2Counter ∧
      (tick c s).2.m_timer2Triggered = s.m_timer2Triggered ∧
      ((tick c s).2.m_IFR &&& VIA_I_T2 ≠ 0 ↔ s.m_IFR &&& VIA_I_T2 ≠ 0)) ∧
    (s.m_ACR &&& VIA_ACR_T2_COUNTPULSES = 0 →
      -2147483648 ≤ s.m_timer2Counter - c → s.m_timer2Counter - c < 2147483648 →
      (s.m_timer2Counter - c ≤ 0 ∧ s.m_timer2Triggered = false →
        (tick c s).2.m_timer2Counter = s.m_timer2Counter - c + 0xFFFF ∧
        (tick c s).2.m_timer2Triggered = true ∧
        (tick c s).2.m_IFR &&& VIA_I_T2 ≠ 0) ∧
      (¬ (s.m_timer2Counter - c ≤ 0 ∧ s.m_timer2Triggered = false) →
        (tick c s).2.m_timer2Counter = s.m_timer2Counter - c ∧
        (tick c s).2.m_timer2Triggered = s.m_timer2Triggered ∧
        ((tick c s).2.m_IFR &&& VIA_I_T2 ≠ 0 ↔ s.m_IFR &&& VIA_I_T2 ≠ 0))) ∧
    (s.m_timer2Triggered = true →
      ∀ ops : List Op, (∀ op ∈ ops, op.keepsTimer2) → ∀ c' : Int,
        (run cb s ops).m_timer2Triggered = true ∧
        ((tick c' (run cb s ops)).2.m_IFR &&& VIA_I_T2 ≠ 0 ↔
          (run cb s ops).m_IFR &&& VIA_I_T2 ≠ 0)) := by
  obtain ⟨hp, hcy⟩ := tick_T2_cases c s
  refine ⟨?_, ?_, ?_⟩
  · intro hm
    obtain ⟨h1, h2, h3⟩ := hp hm
    exact ⟨h1, h2, by rw [flag_T2_iff, flag_T2_iff, h3]⟩
  · intro hm hlo hhi
    refine ⟨?_, ?_⟩
    · intro hf
      obtain ⟨h1, h2, h3⟩ := (hcy hm hlo hhi).1 hf
      exact ⟨h1, h2, (flag_T2_iff _).2 h3⟩
    · intro hn
      obtain ⟨h1, h2, h3⟩ := (hcy hm hlo hhi).2 hn
      exact ⟨h1, h2, by rw [flag_T2_iff, flag_T2_iff, h3]⟩
  · intro ht ops hops c'
    obtain ⟨r1, -⟩ := run_T2_after_fired cb hq ops s hops ht
    obtain ⟨-, t2⟩ := tick_T2_after_fired c' _ r1
    exact ⟨r1, by rw [flag_T2_iff, flag_T2_iff, t2]⟩

/-- C13 (amended) at a concrete input: from power-on (cycle-counting),
`tick(5)` fires Timer B (counter 65530, flag set); after reading counter-low
(flag cleared) and a mode write, a further tick leaves the flag clear. -/
theorem timer2_tick_witness :
    quietCallbacks.Quiet ∧
    (powerOn.m_ACR &&& VIA_ACR_T2_COUNTPULSES = 0) ∧
    (-2147483648 ≤ powerOn.m_timer2Counter - 5 ∧ powerOn.m_timer2Counter - 5 < 2147483648) ∧
    (powerOn.m_timer2Counter - 5 ≤ 0 ∧ powerOn.m_timer2Triggered = false) ∧
    (tick 5 powerOn).2.m_timer2Counter = 65530 ∧
    (tick 5 powerOn).2.m_IFR &&& VIA_I_T2 ≠ 0 ∧
    ((tick 5 powerOn).2.m_timer2Triggered = true) ∧
    (tick 7 (run quietCallbacks (tick 5 powerOn).2
      [Op.read VIA_REG_T2_C_LO, Op.write VIA_REG_ACR 0x40])).2.m_IFR &&& VIA_I_T2 = 0 :=
  have h := timer2_tick quietCallbacks quietCallbacks_quiet 5 powerOn
  have hf := (h.2.1 (by decide) (by decide) (by decide)).1 ⟨by decide, by decide⟩
  have h2 := timer2_tick quietCallbacks quietCallbacks_quiet 0 (tick 5 powerOn).2
  ⟨quietCallbacks_quiet, by decide, ⟨by decide, by decide⟩, ⟨by decide, by decide⟩,
    hf.1.trans (by decide), hf.2.2, hf.2.1,
    by_contra (fun hne =>
      ((h2.2.2 hf.2.1 [Op.read VIA_REG_T2_C_LO, Op.write VIA_REG_ACR 0x40]
        (by
          intro op hop
          rcases List.mem_cons.1 hop with e | e
          · subst e; trivial
          · rw [List.mem_singleton] at e; subst e
            exact (show VIA_REG_ACR ≠ VIA_REG_T2_C_HI by decide))
        7).2.1 hne) (by decide))⟩

/-! ## C14: `reset` -/

/-- C14: from every state `reset()` yields the state in which all 16 stored
registers, both counters, both latches, the four control-line levels and their
previous samples, the flags, the enables and the mode register are 0 and both
fired markers are false (so it does not depend on the state before);
`readReg(VIA_REG_IFR)` then returns 0 and `readReg(VIA_REG_IER)` returns 0x80;
and `reset` after `reset` equals a single `reset`. -/
theorem reset_postcondition (cb : Callbacks) (s s' : MOS6522) :
    (∀ r : Fin 16, (reset s).m_regs r = 0) ∧
    (reset s).m_timer1Counter = 0 ∧ (reset s).m_timer2Counter = 0 ∧
    (reset s).m_timer1Latch = 0 ∧ (reset s).m_timer2Latch = 0 ∧
    (reset s).m_CA1 = 0 ∧ (reset s).m_CA2 = 0 ∧ (reset s).m_CB1 = 0 ∧ (reset s).m_CB2 = 0 ∧
    (reset s).m_CA1_prev = 0 ∧ (reset s).m_CA2_prev = 0 ∧
    (reset s).m_CB1_prev = 0 ∧ (reset s).m_CB2_prev = 0 ∧
    (reset s).m_IFR = 0 ∧ (reset s).m_IER = 0 ∧ (reset s).m_ACR = 0 ∧
    (reset s).m_timer1Triggered = false ∧ (reset s).m_timer2Triggered = false ∧
    reset s = reset s' ∧
    (readReg cb VIA_REG_IFR (reset s)).1 = 0 ∧
    (readReg cb VIA_REG_IER (reset s)).1 = 0x80 ∧
    reset (reset s) = reset s :=
  ⟨fun _ => rfl, rfl, rfl, rfl, rfl, rfl, rfl, rfl, rfl, rfl, rfl, rfl, rfl, rfl, rfl, rfl,
    rfl, rfl, rfl, by simp [readReg_IFR, reset], by simp [readReg_IER, reset], rfl⟩

/-! ## C15: registers stored verbatim -/

/-- The members the verbatim registers must leave alone. -/
theorem writeReg_verbatim_frame (cb : Callbacks) (hq : cb.Quiet) (r : Fin 16) (v : Nat)
    (s : MOS6522)
    (hr : r = VIA_REG_DDRA ∨ r = VIA_REG_DDRB ∨ r = VIA_REG_ACR ∨ r = VIA_REG_PCR ∨
      r = VIA_REG_SR) :
    (writeReg cb r v s).m_IFR = s.m_IFR ∧ (writeReg cb r v s).m_IER = s.m_IER ∧
    (writeReg cb r v s).m_timer1Counter = s.m_timer1Counter ∧
    (writeReg cb r v s).m_timer2Counter = s.m_timer2Counter ∧
    (writeReg cb r v s).m_timer1Latch = s.m_timer1Latch ∧
    (writeReg cb r v s).m_timer2Latch = s.m_timer2Latch := by
  rcases hr with e | e | e | e | e <;>
    (subst e
     simp [writeReg, pcrCA2, pcrCB2, reg_defs, quiet_out hq]
     try ((repeat' split) <;> simp))

/-- Reading a verbatim register returns the stored byte and changes nothing. -/
theorem readReg_verbatim (cb : Callbacks) (r : Fin 16) (s : MOS6522)
    (hr : r = VIA_REG_DDRA ∨ r = VIA_REG_DDRB ∨ r = VIA_REG_ACR ∨ r = VIA_REG_PCR ∨
      r = VIA_REG_SR) :
    readReg cb r s = ((if r = VIA_REG_ACR then (s.m_ACR : Int) else (s.m_regs r : Int)), s) := by
  rcases hr with e | e | e | e | e <;> subst e <;> rfl

/-- What the write leaves in the cell a later read returns. -/
theorem writeReg_verbatim_value (cb : Callbacks) (hq : cb.Quiet) (r : Fin 16) (v : Nat)
    (s : MOS6522)
    (hr : r = VIA_REG_DDRA ∨ r = VIA_REG_DDRB ∨ r = VIA_REG_ACR ∨ r = VIA_REG_PCR ∨
      r = VIA_REG_SR) :
    (if r = VIA_REG_ACR then (writeReg cb r v s).m_ACR else (writeReg cb r v s).m_regs r) =
      u8 v := by
  rcases hr with e | e | e | e | e <;>
    (subst e
     simp [writeReg, pcrCA2, pcrCB2, reg_defs, quiet_out hq]
     try ((repeat' split) <;> simp))

/-- C15: for every byte `v` and every register `r` among direction A,
direction B, the mode register, the control register and index 10 (quiet
callbacks), `writeReg(r, v)` followed by `readReg(r)` returns `v`; the write
leaves the flags, the enables, both counters and both latches as they were,
and the read changes nothing at all. -/
theorem verbatim_roundtrip (cb : Callbacks) (hq : cb.Quiet) (s : MOS6522) (r : Fin 16)
    (v : Nat) (hv : v < 256)
    (hr : r = VIA_REG_DDRA ∨ r = VIA_REG_DDRB ∨ r = VIA_REG_ACR ∨ r = VIA_REG_PCR ∨
      r = VIA_REG_SR) :
    (readReg cb r (writeReg cb r v s)).1 = (v : Int) ∧
    (readReg cb r (writeReg cb r v s)).2 = writeReg cb r v s ∧
    (writeReg cb r v s).m_IFR = s.m_IFR ∧ (writeReg cb r v s).m_IER = s.m_IER ∧
    (writeReg cb r v s).m_timer1Counter = s.m_timer1Counter ∧
    (writeReg cb r v s).m_timer2Counter = s.m_timer2Counter ∧
    (writeReg cb r v s).m_timer1Latch = s.m_timer1Latch ∧
    (writeReg cb r v s).m_timer2Latch = s.m_timer2Latch := by
  have hval := writeReg_verbatim_value cb hq r v s hr
  rw [u8_of_lt hv] at hval
  refine ⟨?_, ?_, writeReg_verbatim_frame cb hq r v s hr⟩
  · rw [readReg_verbatim cb r _ hr]
    dsimp only
    by_cases hacr : r = VIA_REG_ACR
    · rw [if_pos hacr] at hval ⊢
      rw [hval]
    · rw [if_neg hacr] at hval ⊢
      rw [hval]
  · rw [readReg_verbatim cb r _ hr]

/-- C15 at concrete inputs: the control register with a manual-output value
and index 10. -/
theorem verbatim_roundtrip_witness :
    quietCallbacks.Quiet ∧ (0xCE < 256) ∧
    (VIA_REG_PCR = VIA_REG_DDRA ∨ VIA_REG_PCR = VIA_REG_DDRB ∨ VIA_REG_PCR = VIA_REG_ACR ∨
      VIA_REG_PCR = VIA_REG_PCR ∨ VIA_REG_PCR = VIA_REG_SR) ∧
    (readReg quietCallbacks VIA_REG_PCR
      (writeReg quietCallbacks VIA_REG_PCR 0xCE (tick 1 powerOn).2)).1 = 0xCE ∧
    (writeReg quietCallbacks VIA_REG_PCR 0xCE (tick 1 powerOn).2).m_IFR = 0x60 ∧
    (readReg quietCallbacks VIA_REG_SR
      (writeReg quietCallbacks VIA_REG_SR 0x5A powerOn)).1 = 0x5A :=
  have h := verbatim_roundtrip quietCallbacks quietCallbacks_quiet (tick 1 powerOn).2
    VIA_REG_PCR 0xCE (by decide) (Or.inr (Or.inr (Or.inr (Or.inl rfl))))
  have h10 := verbatim_roundtrip quietCallbacks quietCallbacks_quiet powerOn
    VIA_REG_SR 0x5A (by decide) (Or.inr (Or.inr (Or.inr (Or.inr rfl))))
  ⟨quietCallbacks_quiet, by decide, Or.inr (Or.inr (Or.inr (Or.inl rfl))), h.1,
    h.2.2.1.trans (by decide), h10.1⟩

/-! ## C19: which reads clear flags -/

theorem readReg_T2_C_LO_eq (cb : Callbacks) (s : MOS6522) :
    readReg cb VIA_REG_T2_C_LO s =
      (s.m_timer2Counter % 256, { s with m_IFR := u8 (s.m_IFR &&& cnot VIA_I_T2) }) := rfl

theorem readReg_ORA_eq (cb : Callbacks) (h : cb.Quiet) (s : MOS6522) :
    readReg cb VIA_REG_ORA s =
      ((s.m_regs VIA_REG_ORA : Int),
        { s with m_IFR := u8 (u8 (s.m_IFR &&& cnot VIA_I_CA1) &&& cnot VIA_I_CA2) }) := by
  simp [readReg, reg_defs, quiet_in h]

theorem readReg_ORB_eq (cb : Callbacks) (h : cb.Quiet) (s : MOS6522) :
    readReg cb VIA_REG_ORB s =
      ((s.m_regs VIA_REG_ORB : Int),
        { s with m_IFR := u8 (u8 (s.m_IFR &&& cnot VIA_I_CB1) &&& cnot VIA_I_CB2) }) := by
  simp [readReg, reg_defs, quiet_in h]

/-- Bits below 8 of a flag byte after clearing the single-bit mask `2^k`. -/
theorem testBit_clear_two_pow (x k i : Nat) (hi : i < 8) :
    (u8 (x &&& cnot (2 ^ k))).testBit i = (x.testBit i && !decide (i = k)) := by
  rw [testBit_u8, Nat.testBit_and, testBit_cnot, Nat.testBit_two_pow]
  have h32 : i < 32 := by omega
  by_cases hk : i = k
  · subst hk; simp
  · have hk' : ¬ k = i := fun e => hk e.symm
    simp [hi, h32, hk, hk']

theorem testBit_clear_CB (x i : Nat) (hi : i < 8) :
    (u8 (u8 (x &&& cnot VIA_I_CB1) &&& cnot VIA_I_CB2)).testBit i =
      (x.testBit i && !decide (i = 4) && !decide (i = 3)) := by
  have e1 : VIA_I_CB1 = 2 ^ 4 := rfl
  have e2 : VIA_I_CB2 = 2 ^ 3 := rfl
  rw [e1, e2, testBit_clear_two_pow _ 3 i hi, testBit_clear_two_pow _ 4 i hi]

/-- C19: a read of Timer A counter-high, Timer A latch-low, Timer A
latch-high, Timer B counter-high, the mode, control, flag, enable or direction
registers leaves the whole chip state unchanged (any callbacks).  With quiet
callbacks a read of the no-handshake output register A leaves the state, hence
the flag register, unchanged; a read of any register other than Timer A
counter-low, Timer B counter-low, output register A (handshake) and output
register B leaves the flag register unchanged; and each of those four reads
changes nothing but the flag register, in which it clears exactly its own
bits (bit 6; bit 5; bits 1 and 0; bits 4 and 3) among bits 0..7. -/
theorem reads_flag_effects (cb : Callbacks) (hq : cb.Quiet) (s : MOS6522) :
    (∀ r : Fin 16,
      (r = VIA_REG_T1_C_HI ∨ r = VIA_REG_T1_L_LO ∨ r = VIA_REG_T1_L_HI ∨
        r = VIA_REG_T2_C_HI ∨ r = VIA_REG_ACR ∨ r = VIA_REG_PCR ∨ r = VIA_REG_IFR ∨
        r = VIA_REG_IER ∨ r = VIA_REG_DDRA ∨ r = VIA_REG_DDRB) →
      ∀ cb' : Callbacks, (readReg cb' r s).2 = s) ∧
    (readReg cb VIA_REG_ORA_NH s).2 = s ∧
    (readReg cb VIA_REG_ORA_NH s).2.m_IFR = s.m_IFR ∧
    (∀ r : Fin 16, r ≠ VIA_REG_T1_C_LO → r ≠ VIA_REG_T2_C_LO → r ≠ VIA_REG_ORA →
      r ≠ VIA_REG_ORB → (readReg cb r s).2.m_IFR = s.m_IFR) ∧
    ((readReg cb VIA_REG_T1_C_LO s).2 =
        { s with m_IFR := (readReg cb VIA_REG_T1_C_LO s).2.m_IFR } ∧
      ∀ i, i < 8 → (readReg cb VIA_REG_T1_C_LO s).2.m_IFR.testBit i =
        (s.m_IFR.testBit i && !decide (i = 6))) ∧
    ((readReg cb VIA_REG_T2_C_LO s).2 =
        { s with m_IFR := (readReg cb VIA_REG_T2_C_LO s).2.m_IFR } ∧
      ∀ i, i < 8 → (readReg cb VIA_REG_T2_C_LO s).2.m_IFR.testBit i =
        (s.m_IFR.testBit i && !decide (i = 5))) ∧
    ((readReg cb VIA_REG_ORA s).2 =
        { s with m_IFR := (readReg cb VIA_REG_ORA s).2.m_IFR } ∧
      ∀ i, i < 8 → (readReg cb VIA_REG_ORA s).2.m_IFR.testBit i =
        (s.m_IFR.testBit i && !decide (i = 1) && !decide (i = 0))) ∧
    ((readReg cb VIA_REG_ORB s).2 =
        { s with m_IFR := (readReg cb VIA_REG_ORB s).2.m_IFR } ∧
      ∀ i, i < 8 → (readReg cb VIA_REG_ORB s).2.m_IFR.testBit i =
        (s.m_IFR.testBit i && !decide (i = 4) && !decide (i = 3))) := by
  have hNH := readReg_ORA_NH_eq cb hq s
  refine ⟨?_, by rw [hNH], by rw [hNH], ?_, ⟨rfl, ?_⟩, ⟨rfl, ?_⟩, ⟨?_, ?_⟩, ⟨?_, ?_⟩⟩
  · intro r hr cb'
    rcases hr with e | e | e | e | e | e | e | e | e | e <;> subst e <;> rfl
  · intro r h1 h2 h3 h4
    fin_cases r <;> simp [reg_defs] at h1 h2 h3 h4 <;> simp [readReg, reg_defs, quiet_in hq]
  · intro i hi
    rw [readReg_T1_C_LO_eq]
    exact testBit_clear_two_pow s.m_IFR 6 i hi
  · intro i hi
    rw [readReg_T2_C_LO_eq]
    exact testBit_clear_two_pow s.m_IFR 5 i hi
  · rw [readReg_ORA_eq cb hq]
  · intro i hi
    rw [readReg_ORA_eq cb hq]
    dsimp only
    rw [testBit_clear_CA]
    simp [hi]
  · rw [readReg_ORB_eq cb hq]
  · intro i hi
    rw [readReg_ORB_eq cb hq]
    exact testBit_clear_CB s.m_IFR i hi

/-- C19 at a concrete state with all seven flags set: reading Timer A
counter-low leaves 0x3F, output register B leaves 0x67, the flag register
itself leaves 0x7F. -/
theorem reads_flag_effects_witness :
    quietCallbacks.Quiet ∧
    (readReg quietCallbacks VIA_REG_T1_C_LO { powerOn with m_IFR := 0x7F }).2.m_IFR = 0x3F ∧
    (readReg quietCallbacks VIA_REG_ORB { powerOn with m_IFR := 0x7F }).2.m_IFR = 0x67 ∧
    (readReg quietCallbacks VIA_REG_IFR { powerOn with m_IFR := 0x7F }).2 =
      { powerOn with m_IFR := 0x7F } :=
  have h := reads_flag_effects quietCallbacks quietCallbacks_quiet { powerOn with m_IFR := 0x7F }
  ⟨quietCallbacks_quiet, by decide, by decide,
    h.1 VIA_REG_IFR (Or.inr (Or.inr (Or.inr (Or.inr (Or.inr (Or.inr (Or.inl rfl)))))))
      quietCallbacks⟩

/-! ## C20: manual-output mode of the control register -/

theorem writeReg_PCR_eq (cb : Callbacks) (v : Nat) (s : MOS6522) :
    writeReg cb VIA_REG_PCR v s =
      pcrCB2 cb (pcrCA2 cb
        { s with m_regs := Function.update s.m_regs VIA_REG_PCR (u8 v) }) := by
  have e : Function.update (Function.update s.m_regs VIA_REG_PCR (u8 v)) VIA_REG_PCR (u8 v) =
      Function.update s.m_regs VIA_REG_PCR (u8 v) := Function.update_idem _ _ _
  rw [← e]
  rfl

/-- The CA2 switch with quiet callbacks. -/
theorem pcrCA2_quiet (cb : Callbacks) (hq : cb.Quiet) (t : MOS6522) :
    (pcrCA2 cb t).m_regs = t.m_regs ∧ (pcrCA2 cb t).m_CA1 = t.m_CA1 ∧
    (pcrCA2 cb t).m_CB1 = t.m_CB1 ∧ (pcrCA2 cb t).m_CB2 = t.m_CB2 ∧
    (pcrCA2 cb t).m_IFR = t.m_IFR ∧
    (pcrCA2 cb t).m_CA2 =
      (if (t.m_regs VIA_REG_PCR >>> 1) &&& 0b111 = 0b110 then 0
        else if (t.m_regs VIA_REG_PCR >>> 1) &&& 0b111 = 0b111 then 1 else t.m_CA2) := by
  unfold pcrCA2
  simp only [quiet_out hq]
  split_ifs <;> exact ⟨rfl, rfl, rfl, rfl, rfl, rfl⟩

/-- The CB2 switch with quiet callbacks. -/
theorem pcrCB2_quiet (cb : Callbacks) (hq : cb.Quiet) (t : MOS6522) :
    (pcrCB2 cb t).m_regs = t.m_regs ∧ (pcrCB2 cb t).m_CA1 = t.m_CA1 ∧
    (pcrCB2 cb t).m_CB1 = t.m_CB1 ∧ (pcrCB2 cb t).m_CA2 = t.m_CA2 ∧
    (pcrCB2 cb t).m_IFR = t.m_IFR ∧
    (pcrCB2 cb t).m_CB2 =
      (if (t.m_regs VIA_REG_PCR >>> 5) &&& 0b111 = 0b110 then 0
        else if (t.m_regs VIA_REG_PCR >>> 5) &&& 0b111 = 0b111 then 1 else t.m_CB2) := by
  unfold pcrCB2
  simp only [quiet_out hq]
  split_ifs <;> exact ⟨rfl, rfl, rfl, rfl, rfl, rfl⟩

/-- The CA2 switch with the counting callbacks. -/
theorem pcrCA2_counting (t : MOS6522) :
    (pcrCA2 countingCallbacks t).m_regs = t.m_regs ∧
    (pcrCA2 countingCallbacks t).m_CB2_prev = t.m_CB2_prev ∧
    (pcrCA2 countingCallbacks t).m_CB1_prev = t.m_CB1_prev ∧
    (pcrCA2 countingCallbacks t).m_CA2_prev =
      t.m_CA2_prev + (if (t.m_regs VIA_REG_PCR >>> 1) &&& 0b111 = 0b110 ∨
        (t.m_regs VIA_REG_PCR >>> 1) &&& 0b111 = 0b111 then 1 else 0) := by
  unfold pcrCA2
  by_cases h6 : (t.m_regs VIA_REG_PCR >>> 1) &&& 0b111 = 0b110
  · rw [if_pos h6, if_pos (Or.inl h6)]
    exact ⟨rfl, rfl, rfl, rfl⟩
  · by_cases h7 : (t.m_regs VIA_REG_PCR >>> 1) &&& 0b111 = 0b111
    · rw [if_neg h6, if_pos h7, if_pos (Or.inr h7)]
      exact ⟨rfl, rfl, rfl, rfl⟩
    · rw [if_neg h6, if_neg h7, if_neg (not_or.2 ⟨h6, h7⟩)]
      exact ⟨rfl, rfl, rfl, rfl⟩

/-- The CB2 switch with the counting callbacks. -/
theorem pcrCB2_counting (t : MOS6522) :
    (pcrCB2 countingCallbacks t).m_CA2_prev = t.m_CA2_prev ∧
    (pcrCB2 countingCallbacks t).m_CB1_prev = t.m_CB1_prev ∧
    (pcrCB2 countingCallbacks t).m_CB2_prev =
      t.m_CB2_prev + (if (t.m_regs VIA_REG_PCR >>> 5) &&& 0b111 = 0b110 ∨
        (t.m_regs VIA_REG_PCR >>> 5) &&& 0b111 = 0b111 then 1 else 0) := by
  unfold pcrCB2
  by_cases h6 : (t.m_regs VIA_REG_PCR >>> 5) &&& 0b111 = 0b110
  · rw [if_pos h6, if_pos (Or.inl h6)]
    exact ⟨rfl, rfl, rfl⟩
  · by_cases h7 : (t.m_regs VIA_REG_PCR >>> 5) &&& 0b111 = 0b111
    · rw [if_neg h6, if_pos h7, if_pos (Or.inr h7)]
      exact ⟨rfl, rfl, rfl⟩
    · rw [if_neg h6, if_neg h7, if_neg (not_or.2 ⟨h6, h7⟩)]
      exact ⟨rfl, rfl, rfl⟩

/-- C20: for every byte `v`, `writeReg(VIA_REG_PCR, v)` with quiet callbacks
sets the level of line CA2 to 0 when bits 3..1 of `v` are 0b110, to 1 when they
are 0b111, and leaves it unchanged otherwise; independently it sets CB2 to 0
when bits 7..5 are 0b110, to 1 when they are 0b111, and leaves it unchanged
otherwise; lines CA1, CB1 and the flag register are unchanged.  With the
counting callbacks, the output-changed callback of a line is invoked once when
that line's sub-field is one of the two manual values and not at all
otherwise, and the callback of the data ports is not invoked. -/
theorem PCR_manual_output (cb : Callbacks) (hq : cb.Quiet) (s : MOS6522) (v : Nat)
    (hv : v < 256) :
    (writeReg cb VIA_REG_PCR v s).m_CA2 =
      (if (v >>> 1) &&& 0b111 = 0b110 then 0
        else if (v >>> 1) &&& 0b111 = 0b111 then 1 else s.m_CA2) ∧
    (writeReg cb VIA_REG_PCR v s).m_CB2 =
      (if (v >>> 5) &&& 0b111 = 0b110 then 0
        else if (v >>> 5) &&& 0b111 = 0b111 then 1 else s.m_CB2) ∧
    (writeReg cb VIA_REG_PCR v s).m_CA1 = s.m_CA1 ∧
    (writeReg cb VIA_REG_PCR v s).m_CB1 = s.m_CB1 ∧
    (writeReg cb VIA_REG_PCR v s).m_IFR = s.m_IFR ∧
    (writeReg countingCallbacks VIA_REG_PCR v s).m_CA2_prev =
      s.m_CA2_prev + (if (v >>> 1) &&& 0b111 = 0b110 ∨ (v >>> 1) &&& 0b111 = 0b111
        then 1 else 0) ∧
    (writeReg countingCallbacks VIA_REG_PCR v s).m_CB2_prev =
      s.m_CB2_prev + (if (v >>> 5) &&& 0b111 = 0b110 ∨ (v >>> 5) &&& 0b111 = 0b111
        then 1 else 0) ∧
    (writeReg countingCallbacks VIA_REG_PCR v s).m_CB1_prev = s.m_CB1_prev := by
  have hcell : ∀ t : MOS6522,
      ({ t with m_regs := Function.update t.m_regs VIA_REG_PCR (u8 v) } : MOS6522).m_regs
        VIA_REG_PCR = v := by
    intro t
    show Function.update t.m_regs VIA_REG_PCR (u8 v) VIA_REG_PCR = v
    rw [Function.update_same, u8_of_lt hv]
  obtain ⟨a1, a2, a3, a4, a5, a6⟩ :=
    pcrCA2_quiet cb hq { s with m_regs := Function.update s.m_regs VIA_REG_PCR (u8 v) }
  obtain ⟨-, b2, b3, b4, b5, b6⟩ := pcrCB2_quiet cb hq
    (pcrCA2 cb { s with m_regs := Function.update s.m_regs VIA_REG_PCR (u8 v) })
  obtain ⟨c1, c2, c3, c4⟩ :=
    pcrCA2_counting { s with m_regs := Function.update s.m_regs VIA_REG_PCR (u8 v) }
  obtain ⟨d1, d2, d3⟩ := pcrCB2_counting
    (pcrCA2 countingCallbacks { s with m_regs := Function.update s.m_regs VIA_REG_PCR (u8 v) })
  rw [a1, hcell] at b6
  rw [hcell] at a6 c4
  rw [c1, hcell] at d3
  rw [writeReg_PCR_eq, writeReg_PCR_eq]
  exact ⟨b4.trans a6, b6.trans (by rw [a4]), b2.trans a2, b3.trans a3, b5.trans a5,
    d1.trans c4, d3.trans (by rw [c2]), d2.trans c3⟩

/-- C20 at concrete inputs: 0xCE (both sub-fields manual: CA2 high, CB2 low)
and 0x00 (no manual field, levels kept). -/
theorem PCR_manual_output_witness :
    quietCallbacks.Quiet ∧ (0xCE < 256) ∧
    (writeReg quietCallbacks VIA_REG_PCR 0xCE { powerOn with m_CB2 := 1 }).m_CA2 = 1 ∧
    (writeReg quietCallbacks VIA_REG_PCR 0xCE { powerOn with m_CB2 := 1 }).m_CB2 = 0 ∧
    (writeReg countingCallbacks VIA_REG_PCR 0xCE { powerOn with m_CB2 := 1 }).m_CA2_prev = 1 ∧
    (writeReg quietCallbacks VIA_REG_PCR 0x00 { powerOn with m_CB2 := 1 }).m_CB2 = 1 ∧
    (writeReg countingCallbacks VIA_REG_PCR 0x00 { powerOn with m_CB2 := 1 }).m_CB2_prev = 0 :=
  have h := PCR_manual_output quietCallbacks quietCallbacks_quiet
    { powerOn with m_CB2 := 1 } 0xCE (by decide)
  have h0 := PCR_manual_output quietCallbacks quietCallbacks_quiet
    { powerOn with m_CB2 := 1 } 0x00 (by decide)
  ⟨quietCallbacks_quiet, by decide, h.1.trans (by decide), h.2.1.trans (by decide),
    h.2.2.2.2.2.1.trans (by decide), h0.2.1.trans (by decide),
    h0.2.2.2.2.2.2.1.trans (by decide)⟩

/-! ## C18: the range of the Timer B counter -/

/-- After Timer B has fired, single-cycle ticks in cycle-counting mode keep
decrementing the counter, through zero and below, down to the lower end of the
32-bit range. -/
theorem ticks1_T2_after_fired (s : MOS6522) (ht : s.m_timer2Triggered = true)
    (hm : s.m_ACR &&& VIA_ACR_T2_COUNTPULSES = 0) (hhi : s.m_timer2Counter < 2147483648)
    (n : Nat) (hlo : -2147483648 ≤ s.m_timer2Counter - (n : Int)) :
    (ticks1 n s).m_timer2Counter = s.m_timer2Counter - (n : Int) ∧
    (ticks1 n s).m_timer2Triggered = true ∧
    (ticks1 n s).m_ACR = s.m_ACR := by
  induction n with
  | zero => exact ⟨by simp [ticks1], ht, rfl⟩
  | succ n ih =>
    obtain ⟨i1, i2, i3⟩ := ih (by push_cast at hlo; omega)
    have hn : ¬ ((ticks1 n s).m_timer2Counter - 1 ≤ 0 ∧
        (ticks1 n s).m_timer2Triggered = false) := by
      rintro ⟨-, hf⟩
      rw [i2] at hf
      exact Bool.noConfusion hf
    obtain ⟨h1, h2, -⟩ := ((tick_T2_cases 1 (ticks1 n s)).2 (by rw [i3]; exact hm)
      (by rw [i1]; push_cast at hlo; omega) (by rw [i1]; omega)).2 hn
    obtain ⟨-, -, h3, -, -⟩ := tick_timer1 1 (ticks1 n s)
    rw [ticks1_succ]
    refine ⟨?_, h2.trans i2, h3.trans i3⟩
    rw [h1, i1]
    push_cast
    omega

theorem readReg_T2_C_HI (cb : Callbacks) (s : MOS6522) :
    readReg cb VIA_REG_T2_C_HI s = (s.m_timer2Counter >>> 8, s) := rfl

theorem readReg_T2_C_HI_of (cb : Callbacks) (s : MOS6522) (x : Int)
    (h : s.m_timer2Counter = x) : (readReg cb VIA_REG_T2_C_HI s).1 = x >>> 8 := by
  rw [readReg_T2_C_HI, h]

theorem reachable_ticks1 (cb : Callbacks) (s : MOS6522) (hs : Reachable cb s) (n : Nat) :
    Reachable cb (ticks1 n s) := by
  induction n with
  | zero => exact hs
  | succ n ih =>
    rw [ticks1_succ]
    exact Reachable.tick 1 ih

/-- C18 (code at the failing inputs): from reset, `tick(5)` fires Timer B and
leaves its counter at 65530; a following `tick(70000)` leaves the counter at
-4470 and `readReg(VIA_REG_T2_C_HI)` returns -18; likewise 65531 single-cycle
ticks after the firing tick leave the counter at -1 and the read returns -1.
Both states are reachable from reset through `tick` with non-negative
cycles. -/
theorem timer2_counter_goes_negative :
    (tick 5 (reset powerOn)).2.m_timer2Counter = 65530 ∧
    (tick 70000 (tick 5 (reset powerOn)).2).2.m_timer2Counter = -4470 ∧
    (readReg quietCallbacks VIA_REG_T2_C_HI
      (tick 70000 (tick 5 (reset powerOn)).2).2).1 = -18 ∧
    Reachable quietCallbacks (tick 70000 (tick 5 (reset powerOn)).2).2 ∧
    (ticks1 65531 (tick 5 (reset powerOn)).2).m_timer2Counter = -1 ∧
    (readReg quietCallbacks VIA_REG_T2_C_HI
      (ticks1 65531 (tick 5 (reset powerOn)).2)).1 = -1 ∧
    Reachable quietCallbacks (ticks1 65531 (tick 5 (reset powerOn)).2) := by
  have hr : Reachable quietCallbacks (tick 5 (reset powerOn)).2 :=
    Reachable.tick 5 (Reachable.reset powerOn)
  obtain ⟨k1, -, -⟩ := ticks1_T2_after_fired (tick 5 (reset powerOn)).2
    (by decide) (by decide) (by decide) 65531 (by decide)
  have hcnt : (ticks1 65531 (tick 5 (reset powerOn)).2).m_timer2Counter = -1 := by
    rw [k1]
    have : (tick 5 (reset powerOn)).2.m_timer2Counter = 65530 := by decide
    rw [this]
    norm_num
  have hread : (readReg quietCallbacks VIA_REG_T2_C_HI
      (ticks1 65531 (tick 5 (reset powerOn)).2)).1 = -1 :=
    (readReg_T2_C_HI_of quietCallbacks _ (-1) hcnt).trans (by decide)
  exact ⟨by decide, by decide, by decide, Reachable.tick 70000 hr, hcnt, hread,
    reachable_ticks1 quietCallbacks _ hr 65531⟩

end VIA6522

namespace VIC20

/-! ## C16: expansion bank mapping -/

/-- After `setRAMExpansion` a block is enabled exactly when it is in the
option's window set, whatever was enabled before. -/
theorem setRAMExpansion_expRAM (value : RAMExpansionOption) (m : Machine) (block : Fin 5) :
    (setRAMExpansion value m).m_expRAM block = decide (block ∈ expansionWindows value) := by
  fin_cases block <;> simp [setRAMExpansion, enableRAMBlock, Function.update]

/-- C16: for each of the eight options and every prior machine state,
`setRAMExpansion` leaves enabled exactly the documented blocks (unexpanded: none;
3K: 0; 8K: 1; 16K: 1, 2; 24K: 1, 2, 3; 27K: 0, 1, 2, 3; 32K: 1, 2, 3, 4; 35K:
all five) and records the option; block 0 is the 3K window at 0x0400, blocks 1
to 3 the 8K windows at 0x2000, 0x4000, 0x6000, block 4 the 8K window at
0xA000. -/
theorem expansion_bank_mapping (m : Machine) :
    enabledBlocks (setRAMExpansion RAMExpansionOption.RAM_unexp m) = [] ∧
    enabledBlocks (setRAMExpansion RAMExpansionOption.RAM_3K m) = [0] ∧
    enabledBlocks (setRAMExpansion RAMExpansionOption.RAM_8K m) = [1] ∧
    enabledBlocks (setRAMExpansion RAMExpansionOption.RAM_16K m) = [1, 2] ∧
    enabledBlocks (setRAMExpansion RAMExpansionOption.RAM_24K m) = [1, 2, 3] ∧
    enabledBlocks (setRAMExpansion RAMExpansionOption.RAM_27K m) = [0, 1, 2, 3] ∧
    enabledBlocks (setRAMExpansion RAMExpansionOption.RAM_32K m) = [1, 2, 3, 4] ∧
    enabledBlocks (setRAMExpansion RAMExpansionOption.RAM_35K m) = [0, 1, 2, 3, 4] ∧
    (∀ value : RAMExpansionOption, ∀ block : Fin 5,
      (setRAMExpansion value m).m_expRAM block = true ↔ block ∈ expansionWindows value) ∧
    (∀ value : RAMExpansionOption, RAMExpansion (setRAMExpansion value m) = value) ∧
    expRAMRange 0 = (0x0400, 0x0400 + 3 * 1024 - 1) ∧
    expRAMRange 1 = (0x2000, 0x2000 + 8 * 1024 - 1) ∧
    expRAMRange 2 = (0x4000, 0x4000 + 8 * 1024 - 1) ∧
    expRAMRange 3 = (0x6000, 0x6000 + 8 * 1024 - 1) ∧
    expRAMRange 4 = (0xA000, 0xA000 + 8 * 1024 - 1) := by
  have key : ∀ value : RAMExpansionOption,
      enabledBlocks (setRAMExpansion value m) =
        ([0, 1, 2, 3, 4] : List (Fin 5)).filter
          (fun block => decide (block ∈ expansionWindows value)) := by
    intro value
    unfold enabledBlocks
    apply List.filter_congr
    intro block _
    exact setRAMExpansion_expRAM value m block
  refine ⟨?_, ?_, ?_, ?_, ?_, ?_, ?_, ?_, ?_, fun _ => rfl, rfl, rfl, rfl, rfl, rfl⟩
  · rw [key]; decide
  · rw [key]; decide
  · rw [key]; decide
  · rw [key]; decide
  · rw [key]; decide
  · rw [key]; decide
  · rw [key]; decide
  · rw [key]; decide
  · intro value block
    rw [setRAMExpansion_expRAM]
    simp

/-- C16 on a machine that had every block enabled: selecting 16K leaves blocks
1 and 2 only; selecting the unexpanded machine leaves none. -/
theorem expansion_bank_mapping_witness :
    enabledBlocks (setRAMExpansion RAMExpansionOption.RAM_16K
      ⟨fun _ => true, RAMExpansionOption.RAM_35K, none⟩) = [1, 2] ∧
    enabledBlocks (setRAMExpansion RAMExpansionOption.RAM_unexp
      ⟨fun _ => true, RAMExpansionOption.RAM_35K, none⟩) = [] :=
  have h := expansion_bank_mapping ⟨fun _ => true, RAMExpansionOption.RAM_35K, none⟩
  ⟨h.2.2.2.1, h.1⟩

/-! ## C17: a single outstanding character injection -/

/-- C17: for all strings `s1`, `s2` and every machine state, after `type(s1)`
then `type(s2)` the pending string is `s2`, and the state is the one `type(s2)`
alone would have left: nothing of `s1` remains; in general `type` overwrites
whatever was pending. -/
theorem type_replaces_pending (m : Machine) (s1 s2 : String) :
    (Machine.type s2 (Machine.type s1 m)).m_typingString = some s2 ∧
    Machine.type s2 (Machine.type s1 m) = Machine.type s2 m ∧
    (Machine.type s2 m).m_typingString = some s2 :=
  ⟨rfl, rfl, rfl⟩

/-- C17 at a concrete input: "LOAD" replaced by "RUN". -/
theorem type_replaces_pending_witness :
    (Machine.type "RUN" (Machine.type "LOAD"
      ⟨fun _ => false, RAMExpansionOption.RAM_unexp, none⟩)).m_typingString = some "RUN" :=
  (type_replaces_pending ⟨fun _ => false, RAMExpansionOption.RAM_unexp, none⟩ "LOAD" "RUN").1

end VIC20
